import Mathlib

/-!
Verification of the buildr-stats-hub synchronization and caching engine.

This file gives a shallow embedding of the engine's core components and proves
properties of them:

- the resumable Team Season Aggregator (statsService, current version):
  ensureTeamSeasonStatsCornersAndCards with its TeamFixtureCache checkpoint
  ledger, per-invocation call budget (maxApiCallsPerInvocation) and done flag;
- the legacy Team Season Aggregator (src/lib/statsService.ts, non-resumable
  version) with its short-circuit on an existing TeamSeasonStats row or a
  same-day ApiFetchLog success marker;
- the Fixture Synchronizer (src/lib/fixturesService.ts):
  pruneDataOlderThanToday and getOrRefreshTodayFixtures with the in-memory
  single-flight promise;
- the Player Stats Refresher (fetchAndStorePlayerStats) with its 24h cooldown;
- the Lineup Window Fetcher (ensureLineupIfWithinWindow);
- the Live Score route (GET /api/fixtures/[id]/live).

Modelling conventions:
- Database tables become lists of row structures; Prisma upserts become
  explicit find-and-replace-or-append functions; deleteMany becomes filter.
- The external provider client is modelled as an oracle argument (a function
  or a value supplied to the operation); each operation returns, together with
  its result and the updated store, the number of provider calls it made.
  Plan-limitation responses are already normalized to empty results by the
  client, so the oracle returning an empty result covers them.
- Timestamps are epoch milliseconds as Nat.  Comparisons of the form
  a >= now - K are encoded as a + K >= now, which is the same inequality over
  the integers and avoids truncated Nat subtraction.
- The DOUBLE PRECISION xg columns are modelled as Int: no claim depends on
  fractional xg arithmetic, only on null-ness and accumulation structure.
- Asynchronous execution is modelled sequentially: an await-ed operation runs
  to completion before the next step.  The in-process single-flight promise of
  the Fixture Synchronizer is modelled as the completed result of the most
  recent refresh, keyed by day.
-/

/-! ## Team Season Aggregator (current resumable version of statsService)

Embeds ensureTeamSeasonStatsCornersAndCards: corners/cards/xG are fetched per
fixture, checkpointed in TeamFixtureCache, and aggregated into TeamSeasonStats
once every fixture of the (capped) season list has a cache row.  All rows are
for one fixed (teamId, season, league) key, which the function operates on.
-/

namespace StatsService

/-- Per-fixture metadata carried over from the bulk fixtures-with-goals call
(the fixtures array returned by fetchTeamFixturesWithGoals). -/
structure FixtureMeta where
  date : Nat
  goalsFor : Nat
  goalsAgainst : Nat
  deriving DecidableEq, Repr

/-- Result shape of the bulk fetchTeamFixturesWithGoals provider call. -/
structure TeamFixturesWithGoals where
  fixtureIds : List Nat
  goalsFor : Nat
  goalsAgainst : Nat
  played : Nat
  fixtures : List FixtureMeta
  deriving DecidableEq, Repr

/-- Result shape of the per-fixture fetchFixtureStatistics provider call. -/
structure RawFixtureTeamStats where
  xg : Option Int
  corners : Nat
  yellowCards : Nat
  redCards : Nat
  deriving DecidableEq, Repr

/-- One TeamFixtureCache row (for the fixed team/season/league key). -/
structure TeamFixtureCacheRow where
  apiFixtureId : Nat
  fixtureDate : Nat
  goalsFor : Nat
  goalsAgainst : Nat
  xg : Option Int
  corners : Nat
  yellowCards : Nat
  redCards : Nat
  deriving DecidableEq, Repr

/-- The TeamSeasonStats row for the fixed team/season/league key. -/
structure TeamSeasonStatsRow where
  minutesPlayed : Nat
  goalsFor : Nat
  goalsAgainst : Nat
  xgFor : Option Int
  corners : Nat
  yellowCards : Nat
  redCards : Nat
  deriving DecidableEq, Repr

/-- Store state touched by the aggregator, restricted to the one
(teamId, season, league) key the invocation works on.  apiFetchLog holds the
success flags of the teamSeasonCorners markers appended for this key. -/
structure StatsDb where
  teamFixtureCache : List TeamFixtureCacheRow
  teamSeasonStats : Option TeamSeasonStatsRow
  apiFetchLog : List Bool
  deriving DecidableEq, Repr

def MAX_FIXTURES_PER_SEASON : Nat := 38

/-- Prisma upsert on TeamFixtureCache keyed by apiFixtureId (team, season and
league are fixed): replace the matching row, or append a new one. -/
def upsertTeamFixtureCache (rows : List TeamFixtureCacheRow)
    (row : TeamFixtureCacheRow) : List TeamFixtureCacheRow :=
  if rows.any (fun r => r.apiFixtureId == row.apiFixtureId) then
    rows.map (fun r => if r.apiFixtureId == row.apiFixtureId then row else r)
  else
    rows ++ [row]

/-- The budget test at the top of the loop:
maxCalls != null and apiCallsThisInvocation >= maxCalls. -/
def budgetExhausted : Option Nat → Nat → Bool
  | some m, calls => m ≤ calls
  | none, _ => false

/-- Outcome of the per-fixture loop: whether it ran to the end of the list
(false means the budget cut it off), the number of fetchFixtureStatistics
calls made, and the TeamFixtureCache contents afterwards. -/
structure LoopOut where
  finished : Bool
  statCalls : Nat
  cache : List TeamFixtureCacheRow
  deriving DecidableEq, Repr

/-- The body of the for-loop over fixtureIdsToProcess.  snapshot is the set of
apiFixtureIds read into cacheByApiFixtureId before the loop started; a fixture
found there is skipped.  Otherwise one statistics call is made, and a cache row
is upserted only when both the call result and the fixture metadata are
present. -/
def processFixtures (statOracle : Nat → Option RawFixtureTeamStats)
    (maxCalls : Option Nat) (snapshot : List Nat) :
    List (Nat × Option FixtureMeta) → Nat → List TeamFixtureCacheRow → LoopOut
  | [], calls, cache => ⟨true, calls, cache⟩
  | (fid, meta) :: rest, calls, cache =>
    if budgetExhausted maxCalls calls then ⟨false, calls, cache⟩
    else if snapshot.contains fid then
      processFixtures statOracle maxCalls snapshot rest calls cache
    else
      match statOracle fid, meta with
      | some stat, some m =>
        processFixtures statOracle maxCalls snapshot rest (calls + 1)
          (upsertTeamFixtureCache cache
            { apiFixtureId := fid, fixtureDate := m.date, goalsFor := m.goalsFor,
              goalsAgainst := m.goalsAgainst, xg := stat.xg, corners := stat.corners,
              yellowCards := stat.yellowCards, redCards := stat.redCards })
      | _, _ =>
        processFixtures statOracle maxCalls snapshot rest (calls + 1) cache

/-- Pairs fixtureIds[i] with fixturesMeta[i] for i below the cap, mirroring the
parallel indexing of the two arrays in the loop. -/
def withMetaIndexed (ids : List Nat) (metas : List FixtureMeta) :
    List (Nat × Option FixtureMeta) :=
  ids.enum.map (fun p => (p.2, metas[p.1]?))

/-- Accumulator of the aggregation pass over the cache rows. -/
structure AggAcc where
  corners : Nat
  yellowCards : Nat
  redCards : Nat
  xgSum : Int
  xgCount : Nat
  deriving DecidableEq, Repr

/-- The single pass summing corners, cards and (non-null) xg over cache rows. -/
def aggregateCacheRows (rows : List TeamFixtureCacheRow) : AggAcc :=
  rows.foldl
    (fun a r =>
      { corners := a.corners + r.corners,
        yellowCards := a.yellowCards + r.yellowCards,
        redCards := a.redCards + r.redCards,
        xgSum := match r.xg with | some x => a.xgSum + x | none => a.xgSum,
        xgCount := match r.xg with | some _ => a.xgCount + 1 | none => a.xgCount })
    ⟨0, 0, 0, 0, 0⟩

/-- Result of one invocation, with provider-call counters. -/
structure EnsureResult where
  done : Bool
  db : StatsDb
  bulkCalls : Nat
  statCalls : Nat
  deriving DecidableEq, Repr

/-- Embedding of the current (resumable) ensureTeamSeasonStatsCornersAndCards.
The bulk fixtures-with-goals result and the per-fixture statistics oracle
stand for the provider.  bulkCalls counts fetchTeamFixturesWithGoals calls and
statCalls counts fetchFixtureStatistics calls made by this invocation. -/
def ensureTeamSeasonStatsCornersAndCards (bulk : TeamFixturesWithGoals)
    (statOracle : Nat → Option RawFixtureTeamStats)
    (maxApiCallsPerInvocation : Option Nat) (db : StatsDb) : EnsureResult :=
  let minutesPlayed := bulk.played * 90
  let limit := min bulk.fixtureIds.length MAX_FIXTURES_PER_SEASON
  let fixtureIdsToProcess := bulk.fixtureIds.take limit
  let snapshot :=
    (db.teamFixtureCache.filter
      (fun r => fixtureIdsToProcess.contains r.apiFixtureId)).map (·.apiFixtureId)
  let loopOut := processFixtures statOracle maxApiCallsPerInvocation snapshot
    (withMetaIndexed fixtureIdsToProcess bulk.fixtures) 0 db.teamFixtureCache
  if loopOut.finished = false then
    { done := false, db := { db with teamFixtureCache := loopOut.cache },
      bulkCalls := 1, statCalls := loopOut.statCalls }
  else
    let cacheRows := loopOut.cache.filter
      (fun r => fixtureIdsToProcess.contains r.apiFixtureId)
    let acc := aggregateCacheRows cacheRows
    let xgFor := if 0 < acc.xgCount then some acc.xgSum else none
    { done := true,
      db :=
        { teamFixtureCache := loopOut.cache,
          teamSeasonStats := some
            { minutesPlayed := minutesPlayed, goalsFor := bulk.goalsFor,
              goalsAgainst := bulk.goalsAgainst, xgFor := xgFor,
              corners := acc.corners, yellowCards := acc.yellowCards,
              redCards := acc.redCards },
          apiFetchLog := db.apiFetchLog ++ [true] },
      bulkCalls := 1, statCalls := loopOut.statCalls }

/-! ### C1 scenario: 10 season fixtures, budget 3 per invocation -/

/-- Bulk fixtures-with-goals result for a team with 10 season fixtures. -/
def c1Bulk : TeamFixturesWithGoals :=
  { fixtureIds := [1, 2, 3, 4, 5, 6, 7, 8, 9, 10], goalsFor := 15, goalsAgainst := 7,
    played := 10,
    fixtures := (List.range 10).map
      (fun i => { date := 1000 + i, goalsFor := 1, goalsAgainst := 0 }) }

/-- Statistics oracle that succeeds for every fixture. -/
def c1Oracle : Nat → Option RawFixtureTeamStats :=
  fun _ => some { xg := none, corners := 1, yellowCards := 1, redCards := 0 }

def c1Db0 : StatsDb :=
  { teamFixtureCache := [], teamSeasonStats := none, apiFetchLog := [] }

def c1Run1 : EnsureResult :=
  ensureTeamSeasonStatsCornersAndCards c1Bulk c1Oracle (some 3) c1Db0

def c1Run2 : EnsureResult :=
  ensureTeamSeasonStatsCornersAndCards c1Bulk c1Oracle (some 3) c1Run1.db

def c1Run3 : EnsureResult :=
  ensureTeamSeasonStatsCornersAndCards c1Bulk c1Oracle (some 3) c1Run2.db

def c1Run4 : EnsureResult :=
  ensureTeamSeasonStatsCornersAndCards c1Bulk c1Oracle (some 3) c1Run3.db

/-- C1: with 10 season fixtures and a call budget of 3, each of the first
three invocations of ensureTeamSeasonStatsCornersAndCards fetches 3 new
fixtures into TeamFixtureCache (3, then 6, then 9 rows) and returns
done = false; the fourth invocation fetches the one remaining fixture,
aggregates into TeamSeasonStats and returns done = true; the total number of
per-fixture statistics calls across the four invocations is exactly 10, so no
fixture with a cache row is ever re-fetched. -/
theorem c1_team_season_aggregator_resumability :
    (c1Run1.done = false ∧ c1Run1.statCalls = 3 ∧
      c1Run1.db.teamFixtureCache.length = 3) ∧
    (c1Run2.done = false ∧ c1Run2.statCalls = 3 ∧
      c1Run2.db.teamFixtureCache.length = 6) ∧
    (c1Run3.done = false ∧ c1Run3.statCalls = 3 ∧
      c1Run3.db.teamFixtureCache.length = 9) ∧
    (c1Run4.done = true ∧ c1Run4.statCalls = 1 ∧
      c1Run4.db.teamFixtureCache.length = 10 ∧
      c1Run4.db.teamSeasonStats = some
        { minutesPlayed := 900, goalsFor := 15, goalsAgainst := 7, xgFor := none,
          corners := 10, yellowCards := 10, redCards := 0 }) ∧
    c1Run1.statCalls + c1Run2.statCalls + c1Run3.statCalls + c1Run4.statCalls = 10 := by
  decide

end StatsService

/-! ## Helper lemmas about the aggregator loop -/

namespace StatsService

/-- Membership in an upsert result: every row is an old row or the new row. -/
theorem mem_upsertTeamFixtureCache {rows : List TeamFixtureCacheRow}
    {row r : TeamFixtureCacheRow} (h : r ∈ upsertTeamFixtureCache rows row) :
    r ∈ rows ∨ r = row := by
  unfold upsertTeamFixtureCache at h
  split at h
  · rcases List.mem_map.mp h with ⟨x, hx, hxr⟩
    by_cases hid : (x.apiFixtureId == row.apiFixtureId) = true
    · right
      rw [if_pos hid] at hxr
      exact hxr.symm
    · left
      rw [if_neg hid] at hxr
      exact hxr ▸ hx
  · rcases List.mem_append.mp h with h1 | h1
    · exact Or.inl h1
    · exact Or.inr (List.mem_singleton.mp h1)

/-- With no call budget the loop always runs to the end of the fixture list. -/
theorem processFixtures_finished_of_no_budget
    (statOracle : Nat → Option RawFixtureTeamStats) (snapshot : List Nat)
    (pairs : List (Nat × Option FixtureMeta)) (calls : Nat)
    (cache : List TeamFixtureCacheRow) :
    (processFixtures statOracle none snapshot pairs calls cache).finished = true := by
  induction pairs generalizing calls cache with
  | nil => rfl
  | cons p rest ih =>
    obtain ⟨fid, meta⟩ := p
    have hb : budgetExhausted none calls = false := rfl
    simp only [processFixtures, hb, Bool.false_eq_true, if_false]
    split
    · exact ih calls cache
    · split
      · exact ih _ _
      · exact ih _ _

/-- A fixture whose statistics call fails never gains a cache row: if no row
for fid exists and the oracle returns none for fid, no row for fid exists
after the loop either. -/
theorem processFixtures_no_row_for_failed
    (statOracle : Nat → Option RawFixtureTeamStats) (maxCalls : Option Nat)
    (snapshot : List Nat) (fid : Nat) (hfail : statOracle fid = none)
    (pairs : List (Nat × Option FixtureMeta)) (calls : Nat)
    (cache : List TeamFixtureCacheRow)
    (hcache : ∀ r ∈ cache, r.apiFixtureId ≠ fid) :
    ∀ r ∈ (processFixtures statOracle maxCalls snapshot pairs calls cache).cache,
      r.apiFixtureId ≠ fid := by
  induction pairs generalizing calls cache with
  | nil => exact hcache
  | cons p rest ih =>
    obtain ⟨pid, meta⟩ := p
    by_cases hpid : pid = fid
    · subst hpid
      simp only [processFixtures, hfail]
      split
      · exact hcache
      · split
        · exact ih calls cache hcache
        · exact ih _ _ hcache
    · rcases hso : statOracle pid with _ | stat
      · simp only [processFixtures, hso]
        split
        · exact hcache
        · split
          · exact ih calls cache hcache
          · exact ih _ _ hcache
      · rcases meta with _ | m
        · simp only [processFixtures, hso]
          split
          · exact hcache
          · split
            · exact ih calls cache hcache
            · exact ih _ _ hcache
        · simp only [processFixtures, hso]
          split
          · exact hcache
          · split
            · exact ih calls cache hcache
            · refine ih _ _ (fun r hr => ?_)
              rcases mem_upsertTeamFixtureCache hr with h1 | h1
              · exact hcache r h1
              · subst h1
                exact hpid

/-- Elements of an enumFrom list are elements of the underlying list. -/
theorem snd_mem_of_mem_enumFrom {α : Type} {l : List α} {n : Nat} {p : Nat × α}
    (h : p ∈ l.enumFrom n) : p.2 ∈ l := by
  induction l generalizing n with
  | nil => simp [List.enumFrom] at h
  | cons a as ih =>
    rcases List.mem_cons.mp h with h1 | h1
    · subst h1
      exact List.mem_cons_self a as
    · exact List.mem_cons_of_mem a (ih h1)

/-- The fixture id of every loop pair comes from the capped id list. -/
theorem fst_mem_of_mem_withMetaIndexed {ids : List Nat} {metas : List FixtureMeta}
    {pr : Nat × Option FixtureMeta} (h : pr ∈ withMetaIndexed ids metas) :
    pr.1 ∈ ids := by
  unfold withMetaIndexed at h
  rcases List.mem_map.mp h with ⟨q, hq, hpr⟩
  rw [← hpr]
  exact snd_mem_of_mem_enumFrom hq

/-- When every fixture of the list is in the pre-loop cache snapshot and no
budget is supplied, the loop completes with no statistics calls and an
unchanged cache. -/
theorem processFixtures_skip_all
    (statOracle : Nat → Option RawFixtureTeamStats) (snapshot : List Nat)
    (pairs : List (Nat × Option FixtureMeta)) (calls : Nat)
    (cache : List TeamFixtureCacheRow)
    (h : ∀ pr ∈ pairs, snapshot.contains pr.1 = true) :
    processFixtures statOracle none snapshot pairs calls cache =
      ⟨true, calls, cache⟩ := by
  induction pairs with
  | nil => rfl
  | cons p rest ih =>
    obtain ⟨fid, meta⟩ := p
    have hb : budgetExhausted none calls = false := rfl
    have hskip : snapshot.contains fid = true := h (fid, meta) (List.mem_cons_self _ _)
    simp only [processFixtures, hb, Bool.false_eq_true, if_false, hskip, if_true]
    exact ih (fun pr hpr => h pr (List.mem_cons_of_mem _ hpr))

end StatsService

/-! ### C3: a failed per-fixture statistics call -/

namespace StatsService

def c3Bulk : TeamFixturesWithGoals :=
  { fixtureIds := [5], goalsFor := 2, goalsAgainst := 1, played := 1,
    fixtures := [{ date := 500, goalsFor := 2, goalsAgainst := 1 }] }

/-- Statistics oracle that fails (returns no data) for every fixture. -/
def c3OracleFail : Nat → Option RawFixtureTeamStats := fun _ => none

def c3Db0 : StatsDb :=
  { teamFixtureCache := [], teamSeasonStats := none, apiFetchLog := [] }

def c3Run : EnsureResult :=
  ensureTeamSeasonStatsCornersAndCards c3Bulk c3OracleFail none c3Db0

/-- C3 counterexample: with a single season fixture whose statistics call
fails, the invocation writes no cache row for it, yet it still finishes the
loop, writes the success marker into ApiFetchLog and returns done = true.
The claim asserted that the job is not marked done (no success marker, result
not done = true), which is false at this input. -/
theorem c3_counterexample_failed_call_still_done :
    c3Run.done = true ∧ c3Run.db.apiFetchLog = [true] ∧
      c3Run.db.teamFixtureCache = [] := by
  decide

/-- C3 amended: when the statistics call for a fixture fails, no
TeamFixtureCache row is written for that fixture — so a later invocation will
re-attempt it rather than skip it — but the invocation is not prevented from
completing: run without a budget it still aggregates the rows it has, appends
the success marker and returns done = true. -/
theorem c3_failed_call_writes_no_cache_row (bulk : TeamFixturesWithGoals)
    (statOracle : Nat → Option RawFixtureTeamStats) (db : StatsDb) (fid : Nat)
    (hfail : statOracle fid = none)
    (hcache : ∀ r ∈ db.teamFixtureCache, r.apiFixtureId ≠ fid) :
    (ensureTeamSeasonStatsCornersAndCards bulk statOracle none db).done = true ∧
    (∀ r ∈ (ensureTeamSeasonStatsCornersAndCards bulk statOracle none db).db.teamFixtureCache,
      r.apiFixtureId ≠ fid) ∧
    (ensureTeamSeasonStatsCornersAndCards bulk statOracle none db).db.apiFetchLog =
      db.apiFetchLog ++ [true] := by
  simp only [ensureTeamSeasonStatsCornersAndCards]
  split
  · next hfin =>
    rw [processFixtures_finished_of_no_budget] at hfin
    exact Bool.noConfusion hfin
  · exact ⟨rfl, processFixtures_no_row_for_failed statOracle none _ fid hfail _ 0 _ hcache, rfl⟩

/-- Witness for c3_failed_call_writes_no_cache_row at the concrete C3
scenario. -/
theorem c3_failed_call_witness :
    (ensureTeamSeasonStatsCornersAndCards c3Bulk c3OracleFail none c3Db0).done = true ∧
    (∀ r ∈ (ensureTeamSeasonStatsCornersAndCards c3Bulk c3OracleFail none c3Db0).db.teamFixtureCache,
      r.apiFixtureId ≠ 5) ∧
    (ensureTeamSeasonStatsCornersAndCards c3Bulk c3OracleFail none c3Db0).db.apiFetchLog =
      c3Db0.apiFetchLog ++ [true] :=
  c3_failed_call_writes_no_cache_row c3Bulk c3OracleFail c3Db0 5 rfl (by simp [c3Db0])

end StatsService

/-! ## Shared time model -/

/-- One calendar day in milliseconds (the model collapses the London-timezone
day computation of the source to epoch-day arithmetic; no claim depends on the
timezone offset itself). -/
def dayMs : Nat := 86400000

/-- The day key used by getTodayDateKey (YYYY-MM-DD in the source, the epoch
day number here). -/
def getTodayDateKey (now : Nat) : Nat := now / dayMs

/-- Start of the day with the given key (T00:00:00.000Z). -/
def dayStartOf (dateKey : Nat) : Nat := dateKey * dayMs

/-- End of the day with the given key (T23:59:59.999Z). -/
def dayEndOf (dateKey : Nat) : Nat := dateKey * dayMs + (dayMs - 1)

/-- Start of the current day, as used by getTeamStatsDayStart. -/
def getTeamStatsDayStart (now : Nat) : Nat := dayStartOf (getTodayDateKey now)

/-- Maximum of a list of timestamps (none for the empty list); stands for a
findFirst with orderBy fetchedAt desc. -/
def maxNatList : List Nat → Option Nat
  | [] => none
  | x :: xs =>
    match maxNatList xs with
    | none => some x
    | some y => some (max x y)

/-- Every member of a list is bounded by its maximum. -/
theorem le_maxNatList_of_mem {x : Nat} {l : List Nat} (h : x ∈ l) :
    ∃ m, maxNatList l = some m ∧ x ≤ m := by
  induction l with
  | nil => cases h
  | cons y ys ih =>
    rcases List.mem_cons.mp h with h1 | h1
    · subst h1
      cases hm : maxNatList ys with
      | none => exact ⟨x, by simp [maxNatList, hm], Nat.le_refl x⟩
      | some z => exact ⟨max x z, by simp [maxNatList, hm], Nat.le_max_left x z⟩
    · rcases ih h1 with ⟨z, hz, hxz⟩
      exact ⟨max y z, by simp [maxNatList, hz], le_trans hxz (Nat.le_max_right y z)⟩

/-! ## Legacy Team Season Aggregator (src/lib/statsService.ts)

The older, non-resumable version of ensureTeamSeasonStatsCornersAndCards.  It
short-circuits when a TeamSeasonStats row already exists for the key (matching
by league name or leagueId) or when a same-day success marker exists in
ApiFetchLog; otherwise it makes the bulk call plus one statistics call per
capped fixture in a single pass, with no TeamFixtureCache checkpoint.
-/

namespace LegacyStatsService

open StatsService

/-- One TeamSeasonStats row for the fixed (teamId, season); the league name
and leagueId columns are kept because the existence check matches on them. -/
structure LegacySeasonRow where
  league : String
  leagueId : Option Nat
  minutesPlayed : Nat
  goalsFor : Nat
  goalsAgainst : Nat
  xgFor : Option Int
  corners : Nat
  yellowCards : Nat
  redCards : Nat
  deriving DecidableEq, Repr

/-- One ApiFetchLog entry for the fixed teamSeasonCorners resource. -/
structure LegacyLogEntry where
  success : Bool
  fetchedAt : Nat
  deriving DecidableEq, Repr

/-- Store state touched by the legacy aggregator for one (teamId, season). -/
structure LegacyDb where
  teamSeasonStats : List LegacySeasonRow
  apiFetchLog : List LegacyLogEntry
  deriving DecidableEq, Repr

/-- The findFirst for a success marker fetched on or after dayStart. -/
def sameDaySuccess (log : List LegacyLogEntry) (dayStart : Nat) : Bool :=
  match maxNatList ((log.filter (·.success)).map (·.fetchedAt)) with
  | some t => decide (dayStart ≤ t)
  | none => false

/-- Prisma upsert on TeamSeasonStats keyed by (teamId, season, league). -/
def upsertLegacySeasonRow (rows : List LegacySeasonRow) (leagueKey : String)
    (row : LegacySeasonRow) : List LegacySeasonRow :=
  if rows.any (fun r => r.league == leagueKey) then
    rows.map (fun r => if r.league == leagueKey then row else r)
  else
    rows ++ [row]

/-- Result of one legacy invocation, with provider-call counters. -/
structure LegacyEnsureResult where
  db : LegacyDb
  bulkCalls : Nat
  statCalls : Nat
  deriving DecidableEq, Repr

/-- Embedding of the legacy ensureTeamSeasonStatsCornersAndCards.  The OR in
the existence check duplicates the league-name condition when leagueId is
null; leagueId is a non-null number here, matching the TS signature. -/
def ensureTeamSeasonStatsCornersAndCardsLegacy (leagueKey : String)
    (leagueId : Nat) (now : Nat) (bulk : TeamFixturesWithGoals)
    (statOracle : Nat → Option RawFixtureTeamStats) (db : LegacyDb) :
    LegacyEnsureResult :=
  if db.teamSeasonStats.any
      (fun r => r.league == leagueKey || r.leagueId == some leagueId) then
    { db := db, bulkCalls := 0, statCalls := 0 }
  else if sameDaySuccess db.apiFetchLog (getTeamStatsDayStart now) then
    { db := db, bulkCalls := 0, statCalls := 0 }
  else
    let limit := min bulk.fixtureIds.length MAX_FIXTURES_PER_SEASON
    let toProcess := bulk.fixtureIds.take limit
    let acc := toProcess.foldl
      (fun a fid =>
        match statOracle fid with
        | some stat =>
          { corners := a.corners + stat.corners,
            yellowCards := a.yellowCards + stat.yellowCards,
            redCards := a.redCards + stat.redCards,
            xgSum := match stat.xg with | some x => a.xgSum + x | none => a.xgSum,
            xgCount := match stat.xg with | some _ => a.xgCount + 1 | none => a.xgCount }
        | none => a)
      (⟨0, 0, 0, 0, 0⟩ : AggAcc)
    let xgFor := if 0 < acc.xgCount then some acc.xgSum else none
    let row : LegacySeasonRow :=
      { league := leagueKey, leagueId := some leagueId,
        minutesPlayed := bulk.played * 90, goalsFor := bulk.goalsFor,
        goalsAgainst := bulk.goalsAgainst, xgFor := xgFor, corners := acc.corners,
        yellowCards := acc.yellowCards, redCards := acc.redCards }
    { db :=
        { teamSeasonStats := upsertLegacySeasonRow db.teamSeasonStats leagueKey row,
          apiFetchLog := db.apiFetchLog ++ [{ success := true, fetchedAt := now }] },
      bulkCalls := 1, statCalls := toProcess.length }

end LegacyStatsService

/-! ### C2: short-circuit on existing TeamSeasonStats row / same-day marker -/

namespace StatsService

def c2Bulk : TeamFixturesWithGoals :=
  { fixtureIds := [7], goalsFor := 1, goalsAgainst := 0, played := 1,
    fixtures := [{ date := 700, goalsFor := 1, goalsAgainst := 0 }] }

def c2Oracle : Nat → Option RawFixtureTeamStats :=
  fun _ => some { xg := none, corners := 1, yellowCards := 1, redCards := 0 }

/-- Store with a complete TeamSeasonStats row (minutesPlayed = 38 * 90, the
full season cap), a cache row for the only season fixture, and a success
marker already present. -/
def c2Db : StatsDb :=
  { teamFixtureCache :=
      [{ apiFixtureId := 7, fixtureDate := 700, goalsFor := 1, goalsAgainst := 0,
         xg := none, corners := 4, yellowCards := 2, redCards := 0 }],
    teamSeasonStats := some
      { minutesPlayed := 3420, goalsFor := 50, goalsAgainst := 20, xgFor := none,
        corners := 200, yellowCards := 60, redCards := 2 },
    apiFetchLog := [true] }

def c2Run : EnsureResult :=
  ensureTeamSeasonStatsCornersAndCards c2Bulk c2Oracle none c2Db

/-- C2 counterexample: even with a complete TeamSeasonStats row and a success
marker already in the store, the current (resumable)
ensureTeamSeasonStatsCornersAndCards performs the bulk fixtures-with-goals
provider call — it has no short-circuit — so the claimed zero total provider
calls is false at this input (bulkCalls = 1, not 0). -/
theorem c2_counterexample_bulk_call_still_made :
    c2Run.bulkCalls = 1 ∧ c2Run.statCalls = 0 ∧ c2Run.done = true := by
  decide

/-- C2 amended: the zero-provider-call short-circuit on an existing
TeamSeasonStats row (matched by league name or leagueId) or a same-day
ApiFetchLog success marker exists only in the legacy statsService
implementation, which then returns immediately with the store unchanged and
zero provider calls.  The current resumable implementation always makes the
single bulk fixtures-with-goals call; when every capped season fixture
already has a TeamFixtureCache row it makes zero per-fixture statistics calls
and returns done = true. -/
theorem c2_short_circuit_legacy_and_resumable
    (leagueKey : String) (leagueId : Nat) (now : Nat)
    (bulkL : TeamFixturesWithGoals)
    (oracleL : Nat → Option RawFixtureTeamStats)
    (dbL : LegacyStatsService.LegacyDb)
    (bulkR : TeamFixturesWithGoals)
    (oracleR : Nat → Option RawFixtureTeamStats) (dbR : StatsDb) :
    (((∃ r ∈ dbL.teamSeasonStats,
          r.league = leagueKey ∨ r.leagueId = some leagueId) ∨
        (∃ e ∈ dbL.apiFetchLog,
          e.success = true ∧ getTeamStatsDayStart now ≤ e.fetchedAt)) →
      LegacyStatsService.ensureTeamSeasonStatsCornersAndCardsLegacy leagueKey
          leagueId now bulkL oracleL dbL =
        { db := dbL, bulkCalls := 0, statCalls := 0 }) ∧
    ((∀ fid ∈ bulkR.fixtureIds.take
          (min bulkR.fixtureIds.length MAX_FIXTURES_PER_SEASON),
        fid ∈ dbR.teamFixtureCache.map (·.apiFixtureId)) →
      (ensureTeamSeasonStatsCornersAndCards bulkR oracleR none dbR).done = true ∧
      (ensureTeamSeasonStatsCornersAndCards bulkR oracleR none dbR).statCalls = 0 ∧
      (ensureTeamSeasonStatsCornersAndCards bulkR oracleR none dbR).bulkCalls = 1) := by
  constructor
  · intro h
    unfold LegacyStatsService.ensureTeamSeasonStatsCornersAndCardsLegacy
    by_cases h1 : (dbL.teamSeasonStats.any
        (fun r => r.league == leagueKey || r.leagueId == some leagueId)) = true
    · rw [if_pos h1]
    · rw [if_neg h1]
      rcases h with h2 | h2
      · exfalso
        rcases h2 with ⟨r, hr, hor⟩
        refine h1 (List.any_eq_true.mpr ⟨r, hr, ?_⟩)
        rcases hor with hor | hor <;> simp [hor]
      · rcases h2 with ⟨e, he, hsucc, hday⟩
        have hmem : e.fetchedAt ∈
            (dbL.apiFetchLog.filter (·.success)).map (·.fetchedAt) :=
          List.mem_map.mpr ⟨e, List.mem_filter.mpr ⟨he, by simp [hsucc]⟩, rfl⟩
        rcases le_maxNatList_of_mem hmem with ⟨m, hm, hle⟩
        have hsame : LegacyStatsService.sameDaySuccess dbL.apiFetchLog
            (getTeamStatsDayStart now) = true := by
          unfold LegacyStatsService.sameDaySuccess
          rw [hm]
          exact decide_eq_true (le_trans hday hle)
        rw [if_pos hsame]
  · intro hall
    have hskip : ∀ pr ∈ withMetaIndexed
        (bulkR.fixtureIds.take (min bulkR.fixtureIds.length MAX_FIXTURES_PER_SEASON))
        bulkR.fixtures,
        ((dbR.teamFixtureCache.filter
          (fun r => (bulkR.fixtureIds.take
            (min bulkR.fixtureIds.length MAX_FIXTURES_PER_SEASON)).contains
              r.apiFixtureId)).map (·.apiFixtureId)).contains pr.1 = true := by
      intro pr hpr
      have hfst := fst_mem_of_mem_withMetaIndexed hpr
      rcases List.mem_map.mp (hall pr.1 hfst) with ⟨r, hr, hrid⟩
      refine List.elem_eq_true_of_mem (List.mem_map.mpr ⟨r, ?_, hrid⟩)
      refine List.mem_filter.mpr ⟨hr, ?_⟩
      rw [hrid]
      exact List.elem_eq_true_of_mem hfst
    simp only [ensureTeamSeasonStatsCornersAndCards]
    rw [processFixtures_skip_all _ _ _ _ _ hskip]
    exact ⟨rfl, rfl, rfl⟩

/-- Witness for c2_short_circuit_legacy_and_resumable: a legacy store with an
existing TeamSeasonStats row short-circuits with zero calls, and the
resumable version with the single season fixture already cached makes zero
statistics calls and one bulk call. -/
theorem c2_short_circuit_witness :
    (LegacyStatsService.ensureTeamSeasonStatsCornersAndCardsLegacy "Premier League"
        39 100 c2Bulk c2Oracle
        { teamSeasonStats :=
            [{ league := "Premier League", leagueId := some 39, minutesPlayed := 3420,
               goalsFor := 50, goalsAgainst := 20, xgFor := none, corners := 200,
               yellowCards := 60, redCards := 2 }],
          apiFetchLog := [] } =
      { db :=
          { teamSeasonStats :=
              [{ league := "Premier League", leagueId := some 39, minutesPlayed := 3420,
                 goalsFor := 50, goalsAgainst := 20, xgFor := none, corners := 200,
                 yellowCards := 60, redCards := 2 }],
            apiFetchLog := [] },
        bulkCalls := 0, statCalls := 0 }) ∧
    ((ensureTeamSeasonStatsCornersAndCards c2Bulk c2Oracle none c2Db).done = true ∧
     (ensureTeamSeasonStatsCornersAndCards c2Bulk c2Oracle none c2Db).statCalls = 0 ∧
     (ensureTeamSeasonStatsCornersAndCards c2Bulk c2Oracle none c2Db).bulkCalls = 1) :=
  ⟨(c2_short_circuit_legacy_and_resumable "Premier League" 39 100 c2Bulk c2Oracle
      { teamSeasonStats :=
          [{ league := "Premier League", leagueId := some 39, minutesPlayed := 3420,
             goalsFor := 50, goalsAgainst := 20, xgFor := none, corners := 200,
             yellowCards := 60, redCards := 2 }],
        apiFetchLog := [] } c2Bulk c2Oracle c2Db).1
      (Or.inl ⟨_, List.mem_singleton.mpr rfl, Or.inl rfl⟩),
   (c2_short_circuit_legacy_and_resumable "Premier League" 39 100 c2Bulk c2Oracle
      { teamSeasonStats :=
          [{ league := "Premier League", leagueId := some 39, minutesPlayed := 3420,
             goalsFor := 50, goalsAgainst := 20, xgFor := none, corners := 200,
             yellowCards := 60, redCards := 2 }],
        apiFetchLog := [] } c2Bulk c2Oracle c2Db).2
      (by decide)⟩

end StatsService

/-! ## Player Stats Refresher (fetchAndStorePlayerStats, current version)

Embeds the cooldown-gated player season stats refresh: skip when the newest
PlayerSeasonStats row for (teamId, season, league) is younger than 24h,
otherwise fetch all pages (one provider call in the model), drop all-zero
rows, and upsert Player then PlayerSeasonStats per raw record.  The batches of
10 run under Promise.allSettled in the source; each write touches a distinct
player key, so the sequential fold is an equivalent schedule.
-/

namespace PlayerStats

def PLAYER_STATS_REFRESH_COOLDOWN_MS : Nat := 24 * 60 * 60 * 1000

/-- JavaScript string-or: the left operand unless it is falsy (empty). -/
def jsOr (a b : String) : String := if a = "" then b else a

theorem jsOr_unknown_ne_empty (a : String) : jsOr a "Unknown" ≠ "" := by
  unfold jsOr
  split
  · decide
  · assumption

theorem jsOr_of_ne_empty {a : String} (h : a ≠ "") (b : String) : jsOr a b = a :=
  if_neg h

structure RawPlayer where
  apiId : Nat
  name : String
  position : Option String
  shirtNumber : Option Nat
  deriving DecidableEq, Repr

/-- Raw per-player stat figures; null fields are defaulted to 0 on use. -/
structure RawPlayerStats where
  appearances : Option Nat
  minutes : Option Nat
  goals : Option Nat
  assists : Option Nat
  fouls : Option Nat
  shots : Option Nat
  shotsOnTarget : Option Nat
  tackles : Option Nat
  yellowCards : Option Nat
  redCards : Option Nat
  deriving DecidableEq, Repr

structure RawPlayerSeasonStats where
  player : RawPlayer
  league : Option String
  stats : RawPlayerStats
  deriving DecidableEq, Repr

structure PlayerRow where
  id : Nat
  apiId : Nat
  name : String
  position : Option String
  shirtNumber : Option Nat
  teamId : Nat
  deriving DecidableEq, Repr

structure PlayerSeasonStatsRow where
  id : Nat
  playerId : Nat
  teamId : Nat
  season : String
  league : String
  appearances : Nat
  minutes : Nat
  goals : Nat
  assists : Nat
  fouls : Nat
  shots : Nat
  shotsOnTarget : Nat
  tackles : Nat
  yellowCards : Nat
  redCards : Nat
  updatedAt : Nat
  deriving DecidableEq, Repr

/-- Store state touched by the refresher; nextPlayerId/nextStatsId model the
SERIAL id columns. -/
structure PlayersDb where
  players : List PlayerRow
  playerSeasonStats : List PlayerSeasonStatsRow
  nextPlayerId : Nat
  nextStatsId : Nat
  deriving DecidableEq, Repr

/-- The provider-noise filter: keep a raw record iff any observed stat is
positive. -/
def hasAnyStat (s : RawPlayerStats) : Bool :=
  decide (0 < s.appearances.getD 0) || decide (0 < s.minutes.getD 0) ||
  decide (0 < s.goals.getD 0) || decide (0 < s.assists.getD 0) ||
  decide (0 < s.fouls.getD 0) || decide (0 < s.shots.getD 0) ||
  decide (0 < s.shotsOnTarget.getD 0) || decide (0 < s.tackles.getD 0) ||
  decide (0 < s.yellowCards.getD 0) || decide (0 < s.redCards.getD 0)

/-- The findFirst orderBy updatedAt desc cooldown test: true iff the newest
matching row was updated within the cooldown (updatedAt >= now - cooldown,
encoded additively). -/
def cooldownActive (rows : List PlayerSeasonStatsRow) (teamId : Nat)
    (season leagueKey : String) (now : Nat) : Bool :=
  match maxNatList ((rows.filter (fun r =>
      r.teamId == teamId && r.season == season && r.league == leagueKey)).map
      (·.updatedAt)) with
  | some t => decide (now ≤ t + PLAYER_STATS_REFRESH_COOLDOWN_MS)
  | none => false

/-- Prisma upsert on Player keyed by apiId; returns the player id. -/
def upsertPlayer (db : PlayersDb) (teamId : Nat) (p : RawPlayer) :
    PlayersDb × Nat :=
  match db.players.find? (fun q => q.apiId == p.apiId) with
  | some q =>
    ({ db with players := db.players.map (fun x =>
        if x.apiId == p.apiId then
          { x with
            name := p.name,
            position := p.position,
            shirtNumber := p.shirtNumber }
        else x) }, q.id)
  | none =>
    ({ db with
        players := db.players ++
          [{ id := db.nextPlayerId, apiId := p.apiId, name := p.name,
             position := p.position, shirtNumber := p.shirtNumber,
             teamId := teamId }],
        nextPlayerId := db.nextPlayerId + 1 }, db.nextPlayerId)

/-- The storeOne closure: upsert the Player row, then update the matching
PlayerSeasonStats row or create a new one.  updatedAt is the Prisma-managed
timestamp, set to the invocation time on every write. -/
def storeOne (teamId : Nat) (season leagueNameBase : String) (now : Nat)
    (db : PlayersDb) (raw : RawPlayerSeasonStats) : PlayersDb :=
  let up := upsertPlayer db teamId raw.player
  let db1 := up.1
  let playerId := up.2
  let leagueName := jsOr leagueNameBase (jsOr (raw.league.getD "") "Unknown")
  match db1.playerSeasonStats.find? (fun r =>
      r.playerId == playerId && r.teamId == teamId && r.season == season &&
      r.league == leagueName) with
  | some e =>
    { db1 with playerSeasonStats := db1.playerSeasonStats.map (fun r =>
        if r.id == e.id then
          { r with
            appearances := raw.stats.appearances.getD 0,
            minutes := raw.stats.minutes.getD 0,
            goals := raw.stats.goals.getD 0,
            assists := raw.stats.assists.getD 0,
            fouls := raw.stats.fouls.getD 0,
            shots := raw.stats.shots.getD 0,
            shotsOnTarget := raw.stats.shotsOnTarget.getD 0,
            tackles := raw.stats.tackles.getD 0,
            yellowCards := raw.stats.yellowCards.getD 0,
            redCards := raw.stats.redCards.getD 0,
            updatedAt := now }
        else r) }
  | none =>
    { db1 with
        playerSeasonStats := db1.playerSeasonStats ++
          [{ id := db1.nextStatsId, playerId := playerId, teamId := teamId,
             season := season, league := leagueName,
             appearances := raw.stats.appearances.getD 0,
             minutes := raw.stats.minutes.getD 0,
             goals := raw.stats.goals.getD 0,
             assists := raw.stats.assists.getD 0,
             fouls := raw.stats.fouls.getD 0,
             shots := raw.stats.shots.getD 0,
             shotsOnTarget := raw.stats.shotsOnTarget.getD 0,
             tackles := raw.stats.tackles.getD 0,
             yellowCards := raw.stats.yellowCards.getD 0,
             redCards := raw.stats.redCards.getD 0,
             updatedAt := now }],
        nextStatsId := db1.nextStatsId + 1 }

structure PlayerFetchResult where
  db : PlayersDb
  providerCalls : Nat
  deriving DecidableEq, Repr

/-- Embedding of fetchAndStorePlayerStats.  leagueKey and leagueNameBase are
both league-or-Unknown in the source; provider stands for the paginated
fetchPlayerSeasonStatsByTeam result (one provider call). -/
def fetchAndStorePlayerStats (teamId : Nat) (season : String)
    (league : Option String) (now : Nat)
    (provider : List RawPlayerSeasonStats) (db : PlayersDb) :
    PlayerFetchResult :=
  let leagueKey := jsOr (league.getD "") "Unknown"
  if cooldownActive db.playerSeasonStats teamId season leagueKey now then
    { db := db, providerCalls := 0 }
  else
    let rawStats := provider.filter (fun raw => hasAnyStat raw.stats)
    { db := rawStats.foldl (storeOne teamId season leagueKey now) db,
      providerCalls := 1 }

end PlayerStats

namespace PlayerStats

/-- upsertPlayer never touches the PlayerSeasonStats table. -/
theorem upsertPlayer_playerSeasonStats (db : PlayersDb) (teamId : Nat)
    (p : RawPlayer) :
    (upsertPlayer db teamId p).1.playerSeasonStats = db.playerSeasonStats := by
  unfold upsertPlayer
  cases hf : db.players.find? (fun q => q.apiId == p.apiId) with
  | none => rfl
  | some q => rfl

/-- When the cooldown is active the refresh is a no-op with zero calls. -/
theorem fetchAndStorePlayerStats_skip (teamId : Nat) (season : String)
    (league : Option String) (now : Nat)
    (provider : List RawPlayerSeasonStats) (db : PlayersDb)
    (h : cooldownActive db.playerSeasonStats teamId season
      (jsOr (league.getD "") "Unknown") now = true) :
    fetchAndStorePlayerStats teamId season league now provider db =
      { db := db, providerCalls := 0 } := by
  unfold fetchAndStorePlayerStats
  rw [if_pos h]

/-- A row of the fetch key updated at the invocation time. -/
def keyRowAt (teamId : Nat) (season leagueKey : String) (t : Nat)
    (r : PlayerSeasonStatsRow) : Prop :=
  r.teamId = teamId ∧ r.season = season ∧ r.league = leagueKey ∧ r.updatedAt = t

/-- storeOne preserves the existence of a key row stamped with the invocation
time: updates re-stamp updatedAt with the same time and never change the key
columns, creates only add rows. -/
theorem storeOne_preserves_key_row (teamId : Nat) (season leagueKey : String)
    (now : Nat) (db : PlayersDb) (raw : RawPlayerSeasonStats)
    (h : ∃ r ∈ db.playerSeasonStats, keyRowAt teamId season leagueKey now r) :
    ∃ r ∈ (storeOne teamId season leagueKey now db raw).playerSeasonStats,
      keyRowAt teamId season leagueKey now r := by
  rcases h with ⟨r0, hr0, hP⟩
  simp only [storeOne, upsertPlayer_playerSeasonStats]
  split
  · next e hf =>
    by_cases hid : (r0.id == e.id) = true
    · refine ⟨_, List.mem_map.mpr ⟨r0, hr0, rfl⟩, ?_⟩
      rw [if_pos hid]
      exact ⟨hP.1, hP.2.1, hP.2.2.1, rfl⟩
    · refine ⟨_, List.mem_map.mpr ⟨r0, hr0, rfl⟩, ?_⟩
      rw [if_neg hid]
      exact hP
  · next hf =>
    exact ⟨r0, List.mem_append_left _ hr0, hP⟩

/-- storeOne establishes a key row stamped with the invocation time, provided
the league key is non-empty (it always is: league-or-Unknown). -/
theorem storeOne_establishes_key_row (teamId : Nat) (season leagueKey : String)
    (now : Nat) (db : PlayersDb) (raw : RawPlayerSeasonStats)
    (hkey : leagueKey ≠ "") :
    ∃ r ∈ (storeOne teamId season leagueKey now db raw).playerSeasonStats,
      keyRowAt teamId season leagueKey now r := by
  simp only [storeOne, upsertPlayer_playerSeasonStats, jsOr_of_ne_empty hkey]
  split
  · next e hf =>
    have hpred := List.find?_some hf
    simp only [Bool.and_eq_true, beq_iff_eq] at hpred
    refine ⟨_, List.mem_map.mpr ⟨e, List.mem_of_find?_eq_some hf, rfl⟩, ?_⟩
    rw [if_pos (beq_self_eq_true e.id)]
    exact ⟨hpred.1.1.2, hpred.1.2, hpred.2, rfl⟩
  · next hf =>
    refine ⟨_, List.mem_append_right _ (List.mem_singleton.mpr rfl), ?_⟩
    exact ⟨rfl, rfl, rfl, rfl⟩

/-- Folding storeOne over a list preserves the key-row invariant. -/
theorem foldl_storeOne_preserves_key_row (teamId : Nat)
    (season leagueKey : String) (now : Nat) (l : List RawPlayerSeasonStats)
    (db : PlayersDb)
    (h : ∃ r ∈ db.playerSeasonStats, keyRowAt teamId season leagueKey now r) :
    ∃ r ∈ (l.foldl (storeOne teamId season leagueKey now) db).playerSeasonStats,
      keyRowAt teamId season leagueKey now r := by
  induction l generalizing db with
  | nil => exact h
  | cons x xs ih =>
    exact ih _ (storeOne_preserves_key_row teamId season leagueKey now db x h)

/-- Folding storeOne over a nonempty list leaves a key row stamped with the
invocation time. -/
theorem foldl_storeOne_key_row (teamId : Nat) (season leagueKey : String)
    (now : Nat) (l : List RawPlayerSeasonStats) (db : PlayersDb)
    (hkey : leagueKey ≠ "") (hne : l ≠ []) :
    ∃ r ∈ (l.foldl (storeOne teamId season leagueKey now) db).playerSeasonStats,
      keyRowAt teamId season leagueKey now r := by
  cases l with
  | nil => exact absurd rfl hne
  | cons x xs =>
    exact foldl_storeOne_preserves_key_row teamId season leagueKey now xs _
      (storeOne_establishes_key_row teamId season leagueKey now db x hkey)

end PlayerStats

namespace PlayerStats

/-- C8: the player stats cooldown.  First conjunct: when the newest
PlayerSeasonStats row for (team, season, league) is younger than the 24h
cooldown, fetchAndStorePlayerStats returns with zero provider calls and an
unchanged store.  Second conjunct: if an invocation at time t0 passes the
cooldown gate and stores at least one (non-all-zero) player row, then any
second invocation for the same key at a time t1 within t0 + cooldown makes
zero provider calls and leaves the store unchanged. -/
theorem c8_player_stats_cooldown (teamId : Nat) (season : String)
    (league : Option String) (dbA : PlayersDb)
    (providerA : List PlayerStats.RawPlayerSeasonStats) (now : Nat)
    (dbB : PlayersDb)
    (provider1 provider2 : List PlayerStats.RawPlayerSeasonStats)
    (t0 t1 : Nat) :
    (PlayerStats.cooldownActive dbA.playerSeasonStats teamId season
        (PlayerStats.jsOr (league.getD "") "Unknown") now = true →
      PlayerStats.fetchAndStorePlayerStats teamId season league now providerA dbA =
        { db := dbA, providerCalls := 0 }) ∧
    (PlayerStats.cooldownActive dbB.playerSeasonStats teamId season
        (PlayerStats.jsOr (league.getD "") "Unknown") t0 = false →
      provider1.filter (fun raw => PlayerStats.hasAnyStat raw.stats) ≠ [] →
      t1 ≤ t0 + PlayerStats.PLAYER_STATS_REFRESH_COOLDOWN_MS →
      PlayerStats.fetchAndStorePlayerStats teamId season league t1 provider2
          ((PlayerStats.fetchAndStorePlayerStats teamId season league t0 provider1 dbB).db) =
        { db := (PlayerStats.fetchAndStorePlayerStats teamId season league t0 provider1 dbB).db,
          providerCalls := 0 }) := by
  constructor
  · intro hcool
    exact fetchAndStorePlayerStats_skip teamId season league now providerA dbA hcool
  · intro hcool hne hwin
    have hrun1 : (PlayerStats.fetchAndStorePlayerStats teamId season league t0
        provider1 dbB).db =
        (provider1.filter (fun raw => PlayerStats.hasAnyStat raw.stats)).foldl
          (PlayerStats.storeOne teamId season
            (PlayerStats.jsOr (league.getD "") "Unknown") t0) dbB := by
      unfold PlayerStats.fetchAndStorePlayerStats
      rw [if_neg (by simp [hcool])]
    have hkey := PlayerStats.jsOr_unknown_ne_empty (league.getD "")
    have hrow := PlayerStats.foldl_storeOne_key_row teamId season
      (PlayerStats.jsOr (league.getD "") "Unknown") t0
      (provider1.filter (fun raw => PlayerStats.hasAnyStat raw.stats)) dbB hkey hne
    rw [← hrun1] at hrow
    rcases hrow with ⟨r, hrmem, hteam, hseason, hleague, hupd⟩
    have hmem : r.updatedAt ∈
        (((PlayerStats.fetchAndStorePlayerStats teamId season league t0 provider1
          dbB).db.playerSeasonStats.filter (fun x =>
            x.teamId == teamId && x.season == season &&
            x.league == PlayerStats.jsOr (league.getD "") "Unknown")).map
          (·.updatedAt)) := by
      refine List.mem_map.mpr ⟨r, List.mem_filter.mpr ⟨hrmem, ?_⟩, rfl⟩
      simp [hteam, hseason, hleague]
    rcases le_maxNatList_of_mem hmem with ⟨m, hm, hle⟩
    have hcool2 : PlayerStats.cooldownActive
        (PlayerStats.fetchAndStorePlayerStats teamId season league t0 provider1
          dbB).db.playerSeasonStats teamId season
        (PlayerStats.jsOr (league.getD "") "Unknown") t1 = true := by
      unfold PlayerStats.cooldownActive
      rw [hm]
      refine decide_eq_true (le_trans hwin ?_)
      rw [hupd] at hle
      exact Nat.add_le_add_right hle _
    exact fetchAndStorePlayerStats_skip teamId season league t1 provider2 _ hcool2

/-- Witness data for the cooldown theorem: a store whose only
PlayerSeasonStats row for the key was updated at time 0. -/
def c8DbA : PlayersDb :=
  { players :=
      [{ id := 1, apiId := 50, name := "A", position := none, shirtNumber := none,
         teamId := 1 }],
    playerSeasonStats :=
      [{ id := 1, playerId := 1, teamId := 1, season := "2025",
         league := "Premier League", appearances := 3, minutes := 200, goals := 1,
         assists := 0, fouls := 2, shots := 5, shotsOnTarget := 2, tackles := 4,
         yellowCards := 1, redCards := 0, updatedAt := 0 }],
    nextPlayerId := 2, nextStatsId := 2 }

def c8Db0 : PlayersDb :=
  { players := [], playerSeasonStats := [], nextPlayerId := 1, nextStatsId := 1 }

/-- One raw player record with a positive observed stat. -/
def c8Raw : PlayerStats.RawPlayerSeasonStats :=
  { player := { apiId := 50, name := "A", position := none, shirtNumber := none },
    league := none,
    stats :=
      { appearances := some 3, minutes := some 200, goals := some 1,
        assists := none, fouls := none, shots := none, shotsOnTarget := none,
        tackles := none, yellowCards := none, redCards := none } }

/-- Witness for c8_player_stats_cooldown: at time 1000 (inside the 24h
cooldown of the row updated at 0) the call is a no-op with zero provider
calls; and after a fetching invocation at time 0 on an empty store, a second
invocation at time 500 makes zero provider calls. -/
theorem c8_player_stats_cooldown_witness :
    (PlayerStats.fetchAndStorePlayerStats 1 "2025" (some "Premier League") 1000
        [c8Raw] c8DbA = { db := c8DbA, providerCalls := 0 }) ∧
    (PlayerStats.fetchAndStorePlayerStats 1 "2025" (some "Premier League") 500
        [c8Raw]
        ((PlayerStats.fetchAndStorePlayerStats 1 "2025" (some "Premier League") 0
          [c8Raw] c8Db0).db) =
      { db := (PlayerStats.fetchAndStorePlayerStats 1 "2025" (some "Premier League")
          0 [c8Raw] c8Db0).db,
        providerCalls := 0 }) :=
  ⟨(c8_player_stats_cooldown 1 "2025" (some "Premier League") c8DbA [c8Raw] 1000
      c8Db0 [c8Raw] [c8Raw] 0 500).1 (by decide),
   (c8_player_stats_cooldown 1 "2025" (some "Premier League") c8DbA [c8Raw] 1000
      c8Db0 [c8Raw] [c8Raw] 0 500).2 (by decide) (by decide) (by decide)⟩

end PlayerStats

/-! ## Live Score route (GET /api/fixtures/[id]/live)

Embeds the state machine of the live route over time relative to kickoff.
The fetchLiveFixture provider call is an oracle: error stands for a thrown
network error, ok none for a null result, ok (some r) for a live result.
providerCalls counts fetchLiveFixture attempts.
-/

namespace LiveScore

def LIVE_CACHE_TTL_MS : Nat := 90 * 1000

def PRE_MATCH_WINDOW_MS : Nat := 10 * 60 * 1000

def MAX_MATCH_DURATION_MS : Nat := 120 * 60 * 1000

def FINISHED_STATUS : List String := ["FT", "AET", "PEN", "ABD", "AWD", "WO", "CAN"]

def isMatchEnded (statusShort : String) : Bool :=
  FINISHED_STATUS.contains statusShort

/-- Result of the fetchLiveFixture provider call. -/
structure LiveResult where
  homeGoals : Nat
  awayGoals : Nat
  elapsedMinutes : Option Nat
  statusShort : String
  deriving DecidableEq, Repr

/-- One LiveScoreCache row for the fixture. -/
structure LiveScoreCacheRow where
  homeGoals : Nat
  awayGoals : Nat
  elapsedMinutes : Option Nat
  statusShort : String
  cachedAt : Nat
  deriving DecidableEq, Repr

/-- The JSON body served for the fixture: notStarted is the live:false
response before the pre-match window; score carries live:true payloads. -/
inductive LiveResponse where
  | notStarted
  | score (homeGoals awayGoals : Nat) (elapsedMinutes : Option Nat)
      (statusShort : String)
  deriving DecidableEq, Repr

structure LiveOut where
  response : LiveResponse
  cache : Option LiveScoreCacheRow
  providerCalls : Nat
  deriving DecidableEq, Repr

/-- The cache row written by an upsert of a provider result at time now. -/
def rowOfResult (r : LiveResult) (now : Nat) : LiveScoreCacheRow :=
  { homeGoals := r.homeGoals, awayGoals := r.awayGoals,
    elapsedMinutes := r.elapsedMinutes, statusShort := r.statusShort,
    cachedAt := now }

/-- The part of the route after the pre-match and cached-terminal/TTL checks:
the apiId guard, the match-duration window test, the post-window refetch with
forced FT fallback, and the in-window fetch with cache fallback.  On this path
now >= kickoff, and when cached is present its status is non-terminal and its
TTL has lapsed. -/
def liveAfterCacheChecks (kickoff : Nat) (apiId : Option Nat)
    (cached : Option LiveScoreCacheRow) (now : Nat)
    (oracle : Except Unit (Option LiveResult)) : LiveOut :=
  match apiId with
  | none =>
    { response := .score 0 0 none "?", cache := cached, providerCalls := 0 }
  | some _ =>
    if now ≤ kickoff + MAX_MATCH_DURATION_MS then
      match oracle with
      | .error _ =>
        match cached with
        | some c =>
          { response := .score c.homeGoals c.awayGoals c.elapsedMinutes c.statusShort,
            cache := cached, providerCalls := 1 }
        | none =>
          { response := .score 0 0 none "?", cache := cached, providerCalls := 1 }
      | .ok none =>
        { response := .score 0 0 none "?", cache := cached, providerCalls := 1 }
      | .ok (some r) =>
        { response := .score r.homeGoals r.awayGoals r.elapsedMinutes r.statusShort,
          cache := some (rowOfResult r now), providerCalls := 1 }
    else
      match cached with
      | some c =>
        match oracle with
        | .ok (some r) =>
          if isMatchEnded r.statusShort then
            { response := .score r.homeGoals r.awayGoals r.elapsedMinutes r.statusShort,
              cache := some (rowOfResult r now), providerCalls := 1 }
          else
            { response := .score c.homeGoals c.awayGoals none
                (if isMatchEnded c.statusShort then c.statusShort else "FT"),
              cache := cached, providerCalls := 1 }
        | .ok none =>
          { response := .score c.homeGoals c.awayGoals none
              (if isMatchEnded c.statusShort then c.statusShort else "FT"),
            cache := cached, providerCalls := 1 }
        | .error _ =>
          { response := .score c.homeGoals c.awayGoals none
              (if isMatchEnded c.statusShort then c.statusShort else "FT"),
            cache := cached, providerCalls := 1 }
      | none =>
        { response := .score 0 0 none "FT", cache := cached, providerCalls := 0 }

/-- Embedding of the GET handler for one stored fixture (kickoff = the
fixture's date column, apiId its external id) with the current LiveScoreCache
row for the fixture and the clock value taken at the top of the handler.
Comparisons against now - TTL and kickoff - PRE window are encoded
additively. -/
def getLiveRoute (kickoff : Nat) (apiId : Option Nat)
    (cached : Option LiveScoreCacheRow) (now : Nat)
    (oracle : Except Unit (Option LiveResult)) : LiveOut :=
  if now < kickoff then
    if kickoff ≤ now + PRE_MATCH_WINDOW_MS then
      { response := .score 0 0 none "Pre", cache := cached, providerCalls := 0 }
    else
      { response := .notStarted, cache := cached, providerCalls := 0 }
  else
    match cached with
    | some c =>
      if isMatchEnded c.statusShort then
        { response := .score c.homeGoals c.awayGoals c.elapsedMinutes c.statusShort,
          cache := cached, providerCalls := 0 }
      else if now ≤ c.cachedAt + LIVE_CACHE_TTL_MS then
        { response := .score c.homeGoals c.awayGoals c.elapsedMinutes c.statusShort,
          cache := cached, providerCalls := 0 }
      else
        liveAfterCacheChecks kickoff apiId (some c) now oracle
    | none => liveAfterCacheChecks kickoff apiId none now oracle

/-- C4: live terminal freeze.  Once the LiveScoreCache row for a fixture
holds a terminal status, every later getLive call (kickoff <= now covers
every instant from the moment such a row can exist onwards, in particular
any time after the 90s TTL has lapsed) serves exactly the cached score and
issues no provider call, leaving the cache unchanged. -/
theorem c4_live_terminal_freeze (kickoff : Nat) (apiId : Option Nat)
    (c : LiveScoreCacheRow) (now : Nat)
    (oracle : Except Unit (Option LiveResult))
    (hkick : kickoff ≤ now) (hended : isMatchEnded c.statusShort = true) :
    getLiveRoute kickoff apiId (some c) now oracle =
      { response := .score c.homeGoals c.awayGoals c.elapsedMinutes c.statusShort,
        cache := some c, providerCalls := 0 } := by
  unfold getLiveRoute
  rw [if_neg (Nat.not_lt.mpr hkick)]
  simp [hended]

/-- Witness for c4_live_terminal_freeze: a finished match cached at time
200000 queried at time 10000000000 — far beyond cachedAt + the 90s TTL —
still serves the cached 2-1 FT score with zero provider calls. -/
theorem c4_live_terminal_freeze_witness :
    getLiveRoute 100000 (some 42)
        (some { homeGoals := 2, awayGoals := 1, elapsedMinutes := some 90,
                statusShort := "FT", cachedAt := 200000 })
        10000000000 (Except.ok none) =
      { response := .score 2 1 (some 90) "FT",
        cache := some { homeGoals := 2, awayGoals := 1, elapsedMinutes := some 90,
                        statusShort := "FT", cachedAt := 200000 },
        providerCalls := 0 } :=
  c4_live_terminal_freeze 100000 (some 42)
    { homeGoals := 2, awayGoals := 1, elapsedMinutes := some 90,
      statusShort := "FT", cachedAt := 200000 }
    10000000000 (Except.ok none) (by decide) (by decide)

/-- C10: after the plausible match window (now beyond kickoff + 2h) with no
LiveScoreCache row for the fixture, the route serves a synthetic 0-0 with
elapsedMinutes null and the generic finished status FT, issuing no provider
call. -/
theorem c10_past_window_no_cache_serves_zero_zero_ft (kickoff apiIdVal now : Nat)
    (oracle : Except Unit (Option LiveResult))
    (hpast : kickoff + MAX_MATCH_DURATION_MS < now) :
    getLiveRoute kickoff (some apiIdVal) none now oracle =
      { response := .score 0 0 none "FT", cache := none, providerCalls := 0 } := by
  have hkick : kickoff ≤ now :=
    le_trans (Nat.le_add_right kickoff MAX_MATCH_DURATION_MS) (Nat.le_of_lt hpast)
  unfold getLiveRoute
  rw [if_neg (Nat.not_lt.mpr hkick)]
  unfold liveAfterCacheChecks
  rw [if_neg (Nat.not_le.mpr hpast)]

/-- Witness for c10: a fixture that kicked off at time 0 queried 3 hours
later with an empty cache is served the fabricated 0-0 FT with zero provider
calls. -/
theorem c10_past_window_witness :
    getLiveRoute 0 (some 42) none 10800000 (Except.ok none) =
      { response := .score 0 0 none "FT", cache := none, providerCalls := 0 } :=
  c10_past_window_no_cache_serves_zero_zero_ft 0 42 10800000 (Except.ok none)
    (by decide)

end LiveScore

/-! ## Lineup Window Fetcher (lineupService)

Embeds isWithinLineupFetchWindow and ensureLineupIfWithinWindow.  The
fetchFixtureLineups provider call is an oracle; none covers both a thrown and
an empty response (the catch swallows errors, so both are observationally a
no-write).  providerCalls counts fetchFixtureLineups attempts.
-/

namespace Lineup

def WINDOW_MINUTES_BEFORE_KICKOFF : Nat := 30

/-- Only fetch lineup from API when kickoffTime - 30min <= now <= kickoffTime
(encoded additively on the left bound). -/
def isWithinLineupFetchWindow (kickoffTime now : Nat) : Bool :=
  decide (kickoffTime ≤ now + WINDOW_MINUTES_BEFORE_KICKOFF * 60 * 1000) &&
  decide (now ≤ kickoffTime)

inductive LineupStatus where
  | starting
  | substitute
  deriving DecidableEq, Repr

structure FixtureLineupRow where
  fixtureId : Nat
  teamId : Nat
  playerId : Nat
  lineupStatus : LineupStatus
  deriving DecidableEq, Repr

/-- One side of the raw lineup response; entries are player external ids,
none standing for a missing player id (defaulted to 0 and skipped). -/
structure RawTeamLineup where
  teamApiId : Nat
  startXI : List (Option Nat)
  substitutes : List (Option Nat)
  deriving DecidableEq, Repr

/-- A Player row as needed for lineup resolution (findFirst by teamId and
apiId). -/
structure LineupPlayerRow where
  id : Nat
  teamId : Nat
  apiId : Nat
  deriving DecidableEq, Repr

/-- Resolve one raw entry to an internal player id, scoped to the team. -/
def resolveEntry (players : List LineupPlayerRow) (teamId : Nat)
    (entry : Option Nat) : Option Nat :=
  let playerApiId := entry.getD 0
  if playerApiId = 0 then none
  else
    match players.find? (fun p => p.teamId == teamId && p.apiId == playerApiId) with
    | some p => some p.id
    | none => none

/-- Rows to create for one team lineup (startXI then substitutes). -/
def rowsForTeam (players : List LineupPlayerRow) (fixtureId teamId : Nat)
    (tl : RawTeamLineup) : List FixtureLineupRow :=
  (tl.startXI.filterMap (fun entry =>
    (resolveEntry players teamId entry).map (fun pid =>
      { fixtureId := fixtureId, teamId := teamId, playerId := pid,
        lineupStatus := .starting }))) ++
  (tl.substitutes.filterMap (fun entry =>
    (resolveEntry players teamId entry).map (fun pid =>
      { fixtureId := fixtureId, teamId := teamId, playerId := pid,
        lineupStatus := .substitute })))

/-- The toCreate list over all returned team lineups, keeping only teams that
map to the fixture's home or away team. -/
def buildToCreate (players : List LineupPlayerRow) (fixtureId : Nat)
    (homeTeamId awayTeamId : Nat) (homeTeamApiId awayTeamApiId : Option Nat)
    (rawLineups : List RawTeamLineup) : List FixtureLineupRow :=
  rawLineups.foldl
    (fun acc tl =>
      if homeTeamApiId = some tl.teamApiId then
        acc ++ rowsForTeam players fixtureId homeTeamId tl
      else if awayTeamApiId = some tl.teamApiId then
        acc ++ rowsForTeam players fixtureId awayTeamId tl
      else acc)
    []

/-- createMany with skipDuplicates on the (fixtureId, teamId, playerId)
unique key. -/
def insertSkipDuplicates (rows : List FixtureLineupRow)
    (toCreate : List FixtureLineupRow) : List FixtureLineupRow :=
  toCreate.foldl
    (fun acc row =>
      if acc.any (fun r => r.fixtureId == row.fixtureId &&
          r.teamId == row.teamId && r.playerId == row.playerId) then acc
      else acc ++ [row])
    rows

structure LineupOut where
  fixtureLineups : List FixtureLineupRow
  providerCalls : Nat
  deriving DecidableEq, Repr

/-- Embedding of ensureLineupIfWithinWindow.  lineups is the FixtureLineup
table; oracle is the fetchFixtureLineups result (none for a thrown or empty
response). -/
def ensureLineupIfWithinWindow (fixtureId : Nat) (kickoffTime : Nat)
    (fixtureApiId : Option Nat) (homeTeamId awayTeamId : Nat)
    (homeTeamApiId awayTeamApiId : Option Nat) (now : Nat)
    (oracle : Option (List RawTeamLineup))
    (players : List LineupPlayerRow) (lineups : List FixtureLineupRow) :
    LineupOut :=
  if 0 < (lineups.filter (fun r => r.fixtureId == fixtureId)).length then
    { fixtureLineups := lineups, providerCalls := 0 }
  else if ¬ (isWithinLineupFetchWindow kickoffTime now = true) then
    { fixtureLineups := lineups, providerCalls := 0 }
  else
    match fixtureApiId with
    | none => { fixtureLineups := lineups, providerCalls := 0 }
    | some _ =>
      match oracle with
      | none => { fixtureLineups := lineups, providerCalls := 1 }
      | some [] => { fixtureLineups := lineups, providerCalls := 1 }
      | some rawLineups =>
        { fixtureLineups := insertSkipDuplicates lineups
            (buildToCreate players fixtureId homeTeamId awayTeamId
              homeTeamApiId awayTeamApiId rawLineups),
          providerCalls := 1 }

/-- C7 counterexample: a fixture with no stored external API id, queried 10
minutes before kickoff with no existing FixtureLineup rows, issues zero
provider calls — not the exactly one call the claim asserts for the
inside-window, no-rows case. -/
theorem c7_counterexample_null_api_id_inside_window :
    ¬ ((ensureLineupIfWithinWindow 1 3600000 none 10 20 (some 100) (some 200)
        3000000 (some []) [] []).providerCalls = 1) := by
  decide

/-- C7 amended: ensureLineupIfWithinWindow issues zero provider calls when
FixtureLineup rows already exist for the fixture, and zero when the current
time is outside [kickoff - 30min, kickoff]; when no rows exist, the time is
inside that window and the fixture has an external API id it issues exactly
one provider call.  (A fixture without an external API id also short-circuits
with zero calls; the claim did not account for that guard.) -/
theorem c7_lineup_single_fetch_and_window_gating (fixtureId kickoffTime : Nat)
    (fixtureApiId : Option Nat) (homeTeamId awayTeamId : Nat)
    (homeTeamApiId awayTeamApiId : Option Nat) (now : Nat)
    (oracle : Option (List RawTeamLineup)) (players : List LineupPlayerRow)
    (lineups : List FixtureLineupRow) :
    ((∃ r ∈ lineups, r.fixtureId = fixtureId) →
      (ensureLineupIfWithinWindow fixtureId kickoffTime fixtureApiId homeTeamId
        awayTeamId homeTeamApiId awayTeamApiId now oracle players lineups) =
        { fixtureLineups := lineups, providerCalls := 0 }) ∧
    (isWithinLineupFetchWindow kickoffTime now = false →
      (ensureLineupIfWithinWindow fixtureId kickoffTime fixtureApiId homeTeamId
        awayTeamId homeTeamApiId awayTeamApiId now oracle players lineups) =
        { fixtureLineups := lineups, providerCalls := 0 }) ∧
    ((¬ ∃ r ∈ lineups, r.fixtureId = fixtureId) →
      isWithinLineupFetchWindow kickoffTime now = true →
      ∀ apiIdVal : Nat, fixtureApiId = some apiIdVal →
      (ensureLineupIfWithinWindow fixtureId kickoffTime fixtureApiId homeTeamId
        awayTeamId homeTeamApiId awayTeamApiId now oracle players
        lineups).providerCalls = 1) := by
  refine ⟨?_, ?_, ?_⟩
  · intro h
    rcases h with ⟨r, hr, hid⟩
    unfold ensureLineupIfWithinWindow
    rw [if_pos ?_]
    refine List.length_pos.mpr (List.ne_nil_of_mem (List.mem_filter.mpr ⟨hr, ?_⟩))
    simp [hid]
  · intro hwin
    unfold ensureLineupIfWithinWindow
    split
    · rfl
    · rw [if_pos ?_]
      simp [hwin]
  · intro hnorows hwin apiIdVal hapi
    unfold ensureLineupIfWithinWindow
    rw [if_neg ?_, if_neg (by simp [hwin]), hapi]
    · cases oracle with
      | none => rfl
      | some ls => cases ls with
        | nil => rfl
        | cons x xs => rfl
    · intro hlen
      rcases List.exists_mem_of_length_pos hlen with ⟨r, hrmem⟩
      have := List.mem_filter.mp hrmem
      exact hnorows ⟨r, this.1, by simpa using this.2⟩

/-- Witness for c7_lineup_single_fetch_and_window_gating.  The first conjunct
is applied to a fixture with an existing lineup row; the second to a call 2
hours before kickoff (outside the 30-minute window); the third to a call 10
minutes before kickoff with no rows and an external API id present, which
makes exactly one provider call. -/
theorem c7_lineup_gating_witness :
    ((ensureLineupIfWithinWindow 1 3600000 (some 9) 10 20 (some 100) (some 200)
        3000000 (some []) []
        [{ fixtureId := 1, teamId := 10, playerId := 3,
           lineupStatus := .starting }]) =
      { fixtureLineups :=
          [{ fixtureId := 1, teamId := 10, playerId := 3,
             lineupStatus := .starting }],
        providerCalls := 0 }) ∧
    ((ensureLineupIfWithinWindow 1 7200000 (some 9) 10 20 (some 100) (some 200)
        0 (some []) [] []) = { fixtureLineups := [], providerCalls := 0 }) ∧
    ((ensureLineupIfWithinWindow 1 3600000 (some 9) 10 20 (some 100) (some 200)
        3000000 (some []) [] []).providerCalls = 1) :=
  ⟨(c7_lineup_single_fetch_and_window_gating 1 3600000 (some 9) 10 20 (some 100)
      (some 200) 3000000 (some []) []
      [{ fixtureId := 1, teamId := 10, playerId := 3,
         lineupStatus := .starting }]).1
    ⟨_, List.mem_singleton.mpr rfl, rfl⟩,
   (c7_lineup_single_fetch_and_window_gating 1 7200000 (some 9) 10 20 (some 100)
      (some 200) 0 (some []) [] []).2.1 (by decide),
   (c7_lineup_single_fetch_and_window_gating 1 3600000 (some 9) 10 20 (some 100)
      (some 200) 3000000 (some []) [] []).2.2 (by simp) (by decide) 9 rfl⟩

end Lineup

/-! ## Fixture Synchronizer (src/lib/fixturesService.ts)

Embeds pruneDataOlderThanToday and getOrRefreshTodayFixtures.  ApiFetchLog
resource strings are modelled by an inductive key type so that
fixtures:<date> and teamSeasonCorners:<team>:<season>:<league> keys are
distinguishable.  The in-process single-flight promise is modelled as the
completed result of the most recent refresh, keyed by day.  The tables the
service never touches are carried as opaque row-id lists so frame conditions
can be stated.  The local bindings of getOrRefreshTodayFixtures (the
existing-fixtures query, the last-success-log query, the zero-fixtures
cleanup, and the two cache-hit conditions) are named top-level definitions.
The provider is total here: the catch branch that records a failure marker is
not exercised by the claims.
-/

namespace Fixtures

/-- The opaque resource key strings of ApiFetchLog rows. -/
inductive Resource where
  | fixtures (day : Nat)
  | teamSeasonCorners (teamId : Nat) (season : String) (league : String)
  | other (tag : String)
  deriving DecidableEq, Repr

structure FetchLogEntry where
  resource : Resource
  success : Bool
  fetchedAt : Nat
  deriving DecidableEq, Repr

/-- A Fixture row as the synchronizer observes it (external id and kickoff
date; the remaining columns play no role in the claims). -/
structure FixtureRow where
  apiId : Nat
  date : Nat
  deriving DecidableEq, Repr

/-- A raw fixture from fetchTodayFixtures, after client normalization. -/
structure RawFixture where
  apiId : Nat
  date : Nat
  homeTeamApiId : Nat
  awayTeamApiId : Nat
  deriving DecidableEq, Repr

/-- The store as touched by the synchronizer.  The last five tables are
carried as opaque row ids: fixturesService neither reads nor writes them. -/
structure FixturesDb where
  fixtures : List FixtureRow
  teams : List Nat
  apiFetchLog : List FetchLogEntry
  teamSeasonStats : List Nat
  teamFixtureCache : List Nat
  playerSeasonStats : List Nat
  fixtureLineups : List Nat
  liveScoreCache : List Nat
  deriving DecidableEq, Repr

/-- Store plus the in-memory single-flight promise (dateKey and the settled
refresh result). -/
structure FixturesState where
  db : FixturesDb
  todayFixturesPromise : Option (Nat × List FixtureRow)
  deriving DecidableEq, Repr

/-- date between dayStart and dayEnd of the given day key. -/
def isInDay (dateKey d : Nat) : Prop :=
  dayStartOf dateKey ≤ d ∧ d ≤ dayEndOf dateKey

instance (dateKey d : Nat) : Decidable (isInDay dateKey d) :=
  inferInstanceAs (Decidable (_ ∧ _))

/-- pruneDataOlderThanToday: deleteMany of fixtures dated outside today and
of fetch-log rows whose resource is not fixtures:<today>; the filters below
keep the complements of the deleted sets. -/
def pruneDataOlderThanToday (now : Nat) (s : FixturesState) : FixturesState :=
  let dateKey := getTodayDateKey now
  { s with db :=
      { s.db with
        fixtures := s.db.fixtures.filter (fun f =>
          ! (decide (f.date < dayStartOf dateKey) ||
             decide (dayEndOf dateKey < f.date))),
        apiFetchLog := s.db.apiFetchLog.filter (fun e =>
          decide (e.resource = Resource.fixtures dateKey)) } }

/-- De-duplication by external fixture id with a seen-set, keeping the first
occurrence (the filter over results.flat()). -/
def dedupGo (seen : List Nat) : List RawFixture → List RawFixture
  | [] => []
  | r :: rs =>
    if seen.contains r.apiId then dedupGo seen rs
    else r :: dedupGo (r.apiId :: seen) rs

def dedupByApiId (l : List RawFixture) : List RawFixture := dedupGo [] l

/-- Insertion step of the stable sort of raw fixtures by kickoff date. -/
def insertByDate (r : RawFixture) : List RawFixture → List RawFixture
  | [] => [r]
  | x :: xs => if r.date ≤ x.date then r :: x :: xs else x :: insertByDate r xs

/-- rawFixtures.sort by date. -/
def sortByDate (l : List RawFixture) : List RawFixture := l.foldr insertByDate []

/-- Team upsert keyed by apiId (the model records only which team external
ids exist; the name/country update leaves that set unchanged). -/
def upsertTeamApi (teams : List Nat) (apiId : Nat) : List Nat :=
  if teams.contains apiId then teams else teams ++ [apiId]

/-- Fixture upsert keyed by apiId, updating the kickoff date. -/
def upsertFixtureRow (rows : List FixtureRow) (raw : RawFixture) :
    List FixtureRow :=
  if rows.any (fun f => f.apiId == raw.apiId) then
    rows.map (fun f =>
      if f.apiId == raw.apiId then { apiId := f.apiId, date := raw.date } else f)
  else
    rows ++ [{ apiId := raw.apiId, date := raw.date }]

/-- Per-raw-fixture step of the refresh batch: upsert both teams, then the
fixture row. -/
def applyRaw (db : FixturesDb) (raw : RawFixture) : FixturesDb :=
  { db with
    teams := upsertTeamApi (upsertTeamApi db.teams raw.homeTeamApiId)
      raw.awayTeamApiId,
    fixtures := upsertFixtureRow db.fixtures raw }

structure TodayResult where
  result : List FixtureRow
  state : FixturesState
  fetches : Nat
  deriving DecidableEq, Repr

/-- The refresh promise body: fetch per league (one counted refresh), dedup,
sort, upsert teams and fixtures, write the success log, re-read today's rows
and store the settled promise. -/
def refreshToday (now : Nat) (provider : Nat → List RawFixture)
    (s : FixturesState) : TodayResult :=
  let dateKey := getTodayDateKey now
  let rawFixtures := sortByDate (dedupByApiId (provider dateKey))
  let db1 := rawFixtures.foldl applyRaw s.db
  let db2 := { db1 with apiFetchLog := db1.apiFetchLog ++
      [{ resource := Resource.fixtures dateKey, success := true,
         fetchedAt := now }] }
  let refreshed := db2.fixtures.filter (fun f => decide (isInDay dateKey f.date))
  { result := refreshed,
    state := { db := db2, todayFixturesPromise := some (dateKey, refreshed) },
    fetches := 1 }

/-- The findFirst for the newest successful fixtures:<dateKey> log entry. -/
def lastSuccessAt (log : List FetchLogEntry) (dateKey : Nat) : Option Nat :=
  maxNatList ((log.filter (fun e =>
    decide (e.resource = Resource.fixtures dateKey) && e.success)).map
    (·.fetchedAt))

/-- lastFetchLog.fetchedAt >= dayStart. -/
def successIsToday (dateKey : Nat) : Option Nat → Bool
  | some t => decide (dayStartOf dateKey ≤ t)
  | none => false

/-- todayFixturesPromise?.dateKey === dateKey. -/
def promiseFor (dateKey : Nat) : Option (Nat × List FixtureRow) → Bool
  | some p => decide (p.1 = dateKey)
  | none => false

/-- The settled value of the shared promise. -/
def promiseResult : Option (Nat × List FixtureRow) → List FixtureRow
  | some p => p.2
  | none => []

/-- The existingFixtures query: today's rows after the prune. -/
def existingTodayFixtures (now : Nat) (s : FixturesState) : List FixtureRow :=
  (pruneDataOlderThanToday now s).db.fixtures.filter (fun f =>
    decide (isInDay (getTodayDateKey now) f.date))

/-- The cache-hit condition: a success log from today and a nonempty
existing-fixtures list. -/
def cacheHitCond (now : Nat) (s : FixturesState) : Bool :=
  successIsToday (getTodayDateKey now)
    (lastSuccessAt (pruneDataOlderThanToday now s).db.apiFetchLog
      (getTodayDateKey now)) &&
  ! (existingTodayFixtures now s).isEmpty

/-- The zero-fixtures cleanup: when no fixtures exist for today, drop the
in-memory promise and delete the fixtures:<dateKey> log rows. -/
def stateAfterZeroCheck (now : Nat) (s : FixturesState) : FixturesState :=
  let s1 := pruneDataOlderThanToday now s
  if (existingTodayFixtures now s).isEmpty then
    { db := { s1.db with apiFetchLog := s1.db.apiFetchLog.filter (fun e =>
        ! decide (e.resource = Resource.fixtures (getTodayDateKey now))) },
      todayFixturesPromise := none }
  else s1

/-- The single-flight join condition: a pending promise for the same day key
while fixtures exist. -/
def joinCond (now : Nat) (s : FixturesState) : Bool :=
  promiseFor (getTodayDateKey now)
    (stateAfterZeroCheck now s).todayFixturesPromise &&
  ! (existingTodayFixtures now s).isEmpty

/-- Embedding of getOrRefreshTodayFixtures: prune, read today's fixtures and
the fetch log, clear stale state when today has zero rows, then serve the
cache hit, join the in-flight promise, or refresh. -/
def getOrRefreshTodayFixtures (now : Nat) (provider : Nat → List RawFixture)
    (s0 : FixturesState) : TodayResult :=
  if cacheHitCond now s0 then
    { result := existingTodayFixtures now s0,
      state := stateAfterZeroCheck now s0, fetches := 0 }
  else if joinCond now s0 then
    { result := promiseResult (stateAfterZeroCheck now s0).todayFixturesPromise,
      state := stateAfterZeroCheck now s0, fetches := 0 }
  else
    refreshToday now provider (stateAfterZeroCheck now s0)

end Fixtures

namespace Fixtures

/-- Filtering twice with the same predicate filters once. -/
theorem filter_idem {α : Type} (p : α → Bool) (l : List α) :
    (l.filter p).filter p = l.filter p := by
  induction l with
  | nil => rfl
  | cons x xs ih =>
    cases h : p x with
    | true => simp [List.filter_cons, h, ih]
    | false => simp [List.filter_cons, h, ih]

theorem prune_idempotent (now : Nat) (s : FixturesState) :
    pruneDataOlderThanToday now (pruneDataOlderThanToday now s) =
      pruneDataOlderThanToday now s := by
  simp only [pruneDataOlderThanToday]
  rw [filter_idem, filter_idem]

theorem existingTodayFixtures_prune (now : Nat) (s : FixturesState) :
    existingTodayFixtures now (pruneDataOlderThanToday now s) =
      existingTodayFixtures now s := by
  unfold existingTodayFixtures
  rw [prune_idempotent]

theorem cacheHitCond_prune (now : Nat) (s : FixturesState) :
    cacheHitCond now (pruneDataOlderThanToday now s) = cacheHitCond now s := by
  unfold cacheHitCond
  rw [existingTodayFixtures_prune, prune_idempotent]

theorem stateAfterZeroCheck_prune (now : Nat) (s : FixturesState) :
    stateAfterZeroCheck now (pruneDataOlderThanToday now s) =
      stateAfterZeroCheck now s := by
  unfold stateAfterZeroCheck
  rw [existingTodayFixtures_prune, prune_idempotent]

theorem joinCond_prune (now : Nat) (s : FixturesState) :
    joinCond now (pruneDataOlderThanToday now s) = joinCond now s := by
  unfold joinCond
  rw [existingTodayFixtures_prune, stateAfterZeroCheck_prune]

/-- When today has fixtures the zero-fixtures cleanup is the identity on the
pruned state. -/
theorem stateAfterZeroCheck_of_not_empty (now : Nat) (s : FixturesState)
    (h : (existingTodayFixtures now s).isEmpty = false) :
    stateAfterZeroCheck now s = pruneDataOlderThanToday now s := by
  unfold stateAfterZeroCheck
  rw [if_neg (by simp [h])]

theorem mem_insertByDate {x r : RawFixture} {l : List RawFixture} :
    x ∈ insertByDate r l ↔ x = r ∨ x ∈ l := by
  induction l with
  | nil => simp [insertByDate]
  | cons y ys ih =>
    unfold insertByDate
    split
    · simp
    · simp only [List.mem_cons, ih]
      tauto

theorem insertByDate_perm (r : RawFixture) (l : List RawFixture) :
    List.Perm (insertByDate r l) (r :: l) := by
  induction l with
  | nil => exact List.Perm.refl _
  | cons y ys ih =>
    unfold insertByDate
    split
    · exact List.Perm.refl _
    · exact (List.Perm.cons y ih).trans (List.Perm.swap r y ys)

theorem sortByDate_perm (l : List RawFixture) : List.Perm (sortByDate l) l := by
  induction l with
  | nil => exact List.Perm.refl _
  | cons x xs ih =>
    exact (insertByDate_perm x (sortByDate xs)).trans (List.Perm.cons x ih)

theorem mem_sortByDate {x : RawFixture} {l : List RawFixture} :
    x ∈ sortByDate l ↔ x ∈ l :=
  (sortByDate_perm l).mem_iff

/-- Fixtures surviving dedup have external ids outside the seen set. -/
theorem apiId_not_mem_seen_of_mem_dedupGo {seen : List Nat}
    {l : List RawFixture} {x : RawFixture} (h : x ∈ dedupGo seen l) :
    ¬ x.apiId ∈ seen := by
  induction l generalizing seen with
  | nil => cases h
  | cons r rs ih =>
    unfold dedupGo at h
    split at h
    · exact ih h
    · rcases List.mem_cons.mp h with h1 | h1
      · next hseen =>
        subst h1
        intro hmem
        exact hseen (List.elem_eq_true_of_mem hmem)
      · have := ih h1
        intro hmem
        exact this (List.mem_cons_of_mem _ hmem)

/-- The external ids of the deduplicated list are pairwise distinct. -/
theorem nodup_map_apiId_dedupGo (seen : List Nat) (l : List RawFixture) :
    ((dedupGo seen l).map (·.apiId)).Nodup := by
  induction l generalizing seen with
  | nil => exact List.nodup_nil
  | cons r rs ih =>
    unfold dedupGo
    split
    · exact ih seen
    · rw [List.map_cons]
      refine List.Nodup.cons ?_ (ih (r.apiId :: seen))
      intro hmem
      rcases List.mem_map.mp hmem with ⟨y, hy, hid⟩
      exact apiId_not_mem_seen_of_mem_dedupGo hy (hid ▸ List.mem_cons_self _ _)

theorem nodup_map_apiId_sorted_dedup (l : List RawFixture) :
    ((sortByDate (dedupByApiId l)).map (·.apiId)).Nodup :=
  ((sortByDate_perm (dedupByApiId l)).map (·.apiId)).nodup_iff.mpr
    (nodup_map_apiId_dedupGo [] l)

/-- The upserted fixture row is present after an upsert. -/
theorem upsertFixtureRow_mem_self (rows : List FixtureRow) (raw : RawFixture) :
    ({ apiId := raw.apiId, date := raw.date } : FixtureRow) ∈
      upsertFixtureRow rows raw := by
  unfold upsertFixtureRow
  split
  · next hany =>
    rcases List.any_eq_true.mp hany with ⟨f, hf, hfid⟩
    refine List.mem_map.mpr ⟨f, hf, ?_⟩
    rw [if_pos hfid]
    have : f.apiId = raw.apiId := by simpa using hfid
    rw [this]
  · exact List.mem_append_right _ (List.mem_singleton.mpr rfl)

/-- Rows with a different external id survive an upsert unchanged. -/
theorem upsertFixtureRow_mem_preserve {rows : List FixtureRow}
    {row : FixtureRow} (raw : RawFixture) (h : row ∈ rows)
    (hne : row.apiId ≠ raw.apiId) : row ∈ upsertFixtureRow rows raw := by
  unfold upsertFixtureRow
  split
  · refine List.mem_map.mpr ⟨row, h, ?_⟩
    rw [if_neg (by simp [hne])]
  · exact List.mem_append_left _ h

theorem applyRaw_apiFetchLog (db : FixturesDb) (raw : RawFixture) :
    (applyRaw db raw).apiFetchLog = db.apiFetchLog := rfl

theorem foldl_applyRaw_apiFetchLog (raws : List RawFixture) (db : FixturesDb) :
    (raws.foldl applyRaw db).apiFetchLog = db.apiFetchLog := by
  induction raws generalizing db with
  | nil => rfl
  | cons x xs ih => exact ih (applyRaw db x)

/-- A fixture row whose external id is absent from a batch survives the whole
batch of upserts. -/
theorem foldl_applyRaw_fixtures_preserve {raws : List RawFixture}
    {db : FixturesDb} {row : FixtureRow} (h : row ∈ db.fixtures)
    (hne : ∀ x ∈ raws, x.apiId ≠ row.apiId) :
    row ∈ (raws.foldl applyRaw db).fixtures := by
  induction raws generalizing db with
  | nil => exact h
  | cons x xs ih =>
    have h2 : row ∈ (applyRaw db x).fixtures :=
      upsertFixtureRow_mem_preserve x h
        (fun heq => hne x (List.mem_cons_self _ _) heq.symm)
    exact ih h2 (fun y hy => hne y (List.mem_cons_of_mem _ hy))

/-- Each raw fixture of a batch with pairwise-distinct external ids ends up
as a stored fixture row with its date. -/
theorem mem_fixtures_foldl_applyRaw {raws : List RawFixture} {db : FixturesDb}
    {r : RawFixture} (hnodup : (raws.map (·.apiId)).Nodup) (hmem : r ∈ raws) :
    ({ apiId := r.apiId, date := r.date } : FixtureRow) ∈
      (raws.foldl applyRaw db).fixtures := by
  induction raws generalizing db with
  | nil => cases hmem
  | cons x xs ih =>
    rw [List.map_cons, List.nodup_cons] at hnodup
    rcases List.mem_cons.mp hmem with h1 | h1
    · subst h1
      have h2 : ({ apiId := r.apiId, date := r.date } : FixtureRow) ∈
          (applyRaw db r).fixtures := upsertFixtureRow_mem_self db.fixtures r
      rw [List.foldl_cons]
      refine foldl_applyRaw_fixtures_preserve h2 ?_
      intro y hy heq
      exact hnodup.1 (List.mem_map.mpr ⟨y, hy, heq⟩)
    · exact ih hnodup.2 h1

end Fixtures

namespace Fixtures

/-- The prune keep-predicate on fixtures is exactly membership in today. -/
theorem pruneKeep_eq_true_iff (dateKey d : Nat) :
    (! (decide (d < dayStartOf dateKey) || decide (dayEndOf dateKey < d))) = true ↔
      isInDay dateKey d := by
  simp only [Bool.not_eq_true', Bool.or_eq_false_iff, decide_eq_false_iff_not,
    Nat.not_lt, isInDay]

/-- A state that already holds a today-dated fixture and a success marker
from today is served from the cache: zero fetches. -/
theorem getOrRefresh_fetches_zero_of_fresh (now : Nat)
    (provider : Nat → List RawFixture) (S : FixturesState)
    (h1 : ∃ f ∈ S.db.fixtures, isInDay (getTodayDateKey now) f.date)
    (h2 : ∃ e ∈ S.db.apiFetchLog,
      e.resource = Resource.fixtures (getTodayDateKey now) ∧ e.success = true ∧
      dayStartOf (getTodayDateKey now) ≤ e.fetchedAt) :
    (getOrRefreshTodayFixtures now provider S).fetches = 0 := by
  rcases h1 with ⟨f, hf, hfday⟩
  rcases h2 with ⟨e, he, heres, hesucc, heday⟩
  have hfmem : f ∈ existingTodayFixtures now S := by
    refine List.mem_filter.mpr ⟨?_, by simpa using hfday⟩
    exact List.mem_filter.mpr ⟨hf, (pruneKeep_eq_true_iff _ _).mpr hfday⟩
  have hemem : e.fetchedAt ∈
      (((pruneDataOlderThanToday now S).db.apiFetchLog.filter (fun x =>
        decide (x.resource = Resource.fixtures (getTodayDateKey now)) &&
          x.success)).map (·.fetchedAt)) := by
    refine List.mem_map.mpr ⟨e, List.mem_filter.mpr ⟨?_, ?_⟩, rfl⟩
    · exact List.mem_filter.mpr ⟨he, by simp [heres]⟩
    · simp [heres, hesucc]
  rcases le_maxNatList_of_mem hemem with ⟨m, hm, hle⟩
  have hEne : (existingTodayFixtures now S).isEmpty = false := by
    cases hE : (existingTodayFixtures now S).isEmpty with
    | false => rfl
    | true =>
      rw [List.isEmpty_iff] at hE
      rw [hE] at hfmem
      cases hfmem
  have hhit : cacheHitCond now S = true := by
    unfold cacheHitCond lastSuccessAt
    rw [hm]
    simp only [successIsToday, hEne, Bool.not_false, Bool.and_true]
    exact decide_eq_true (le_trans heday hle)
  unfold getOrRefreshTodayFixtures
  rw [if_pos hhit]

/-! ### C5 scenario and theorem -/

def c5EmptyDb : FixturesDb :=
  { fixtures := [], teams := [], apiFetchLog := [], teamSeasonStats := [],
    teamFixtureCache := [], playerSeasonStats := [], fixtureLineups := [],
    liveScoreCache := [] }

def c5EmptyState : FixturesState :=
  { db := c5EmptyDb, todayFixturesPromise := none }

/-- A day with no fixtures: the provider returns an empty list. -/
def c5ProviderEmpty : Nat → List RawFixture := fun _ => []

def c5Call1 : TodayResult :=
  getOrRefreshTodayFixtures 0 c5ProviderEmpty c5EmptyState

def c5Call2 : TodayResult :=
  getOrRefreshTodayFixtures 0 c5ProviderEmpty c5Call1.state

/-- C5 counterexample: on a zero-fixture day, two immediate successive calls
to getOrRefreshTodayFixtures each run a full provider refresh — the second
call deletes the success marker written by the first (zero stored fixtures)
and refreshes again, so the total is two provider fetches, not at most one. -/
theorem c5_counterexample_two_fetches_on_empty_day :
    ¬ (c5Call1.fetches + c5Call2.fetches ≤ 1) := by
  decide

/-- C5 amended: two calls to getOrRefreshTodayFixtures in immediate
succession (same clock value, same provider) perform at most one provider
fetch in total, provided the provider result (after de-duplication) contains
at least one fixture dated within today's bounds — the second call then hits
the stored-fixtures-plus-success-marker cache or joins the recorded promise.
On a zero-fixture day the stale-cache cleanup forces the second call to
refresh again (see the counterexample). -/
theorem c5_ensure_today_at_most_one_fetch (s0 : FixturesState) (now : Nat)
    (provider : Nat → List RawFixture)
    (hprov : ∃ r ∈ dedupByApiId (provider (getTodayDateKey now)),
      isInDay (getTodayDateKey now) r.date) :
    (getOrRefreshTodayFixtures now provider s0).fetches +
      (getOrRefreshTodayFixtures now provider
        (getOrRefreshTodayFixtures now provider s0).state).fetches ≤ 1 := by
  by_cases hhit : cacheHitCond now s0 = true
  · have hne : (existingTodayFixtures now s0).isEmpty = false := by
      have h3 := hhit
      unfold cacheHitCond at h3
      simp only [Bool.and_eq_true, Bool.not_eq_true'] at h3
      exact h3.2
    have hcall1 : getOrRefreshTodayFixtures now provider s0 =
        { result := existingTodayFixtures now s0,
          state := pruneDataOlderThanToday now s0, fetches := 0 } := by
      unfold getOrRefreshTodayFixtures
      rw [if_pos hhit, stateAfterZeroCheck_of_not_empty now s0 hne]
    rw [hcall1]
    have hhit2 : cacheHitCond now (pruneDataOlderThanToday now s0) = true := by
      rw [cacheHitCond_prune]
      exact hhit
    have hcall2 : (getOrRefreshTodayFixtures now provider
        (pruneDataOlderThanToday now s0)).fetches = 0 := by
      unfold getOrRefreshTodayFixtures
      rw [if_pos hhit2]
    simp [hcall2]
  · by_cases hjoin : joinCond now s0 = true
    · have hne : (existingTodayFixtures now s0).isEmpty = false := by
        have h3 := hjoin
        unfold joinCond at h3
        simp only [Bool.and_eq_true, Bool.not_eq_true'] at h3
        exact h3.2
      have hcall1 : getOrRefreshTodayFixtures now provider s0 =
          { result := promiseResult
              (stateAfterZeroCheck now s0).todayFixturesPromise,
            state := pruneDataOlderThanToday now s0, fetches := 0 } := by
        unfold getOrRefreshTodayFixtures
        rw [if_neg (by simp [hhit]), if_pos hjoin,
          stateAfterZeroCheck_of_not_empty now s0 hne]
      rw [hcall1]
      have hhit2 : cacheHitCond now (pruneDataOlderThanToday now s0) = false := by
        rw [cacheHitCond_prune]
        simpa using hhit
      have hjoin2 : joinCond now (pruneDataOlderThanToday now s0) = true := by
        rw [joinCond_prune]
        exact hjoin
      have hcall2 : (getOrRefreshTodayFixtures now provider
          (pruneDataOlderThanToday now s0)).fetches = 0 := by
        unfold getOrRefreshTodayFixtures
        rw [if_neg (by simp [hhit2]), if_pos hjoin2]
      simp [hcall2]
    · have hcall1 : getOrRefreshTodayFixtures now provider s0 =
          refreshToday now provider (stateAfterZeroCheck now s0) := by
        unfold getOrRefreshTodayFixtures
        rw [if_neg (by simp [hhit]), if_neg (by simp [hjoin])]
      rw [hcall1]
      rcases hprov with ⟨r, hrmem, hrday⟩
      have hr2 : r ∈ sortByDate (dedupByApiId (provider (getTodayDateKey now))) :=
        mem_sortByDate.mpr hrmem
      have hnd := nodup_map_apiId_sorted_dedup (provider (getTodayDateKey now))
      have hfix : ({ apiId := r.apiId, date := r.date } : FixtureRow) ∈
          (refreshToday now provider (stateAfterZeroCheck now s0)).state.db.fixtures := by
        have : (refreshToday now provider (stateAfterZeroCheck now s0)).state.db.fixtures =
            ((sortByDate (dedupByApiId (provider (getTodayDateKey now)))).foldl
              applyRaw (stateAfterZeroCheck now s0).db).fixtures := rfl
        rw [this]
        exact mem_fixtures_foldl_applyRaw hnd hr2
      have hlog : ({ resource := Resource.fixtures (getTodayDateKey now),
                     success := true,
                     fetchedAt := now } : FetchLogEntry) ∈
          (refreshToday now provider (stateAfterZeroCheck now s0)).state.db.apiFetchLog := by
        have : (refreshToday now provider (stateAfterZeroCheck now s0)).state.db.apiFetchLog =
            ((sortByDate (dedupByApiId (provider (getTodayDateKey now)))).foldl
              applyRaw (stateAfterZeroCheck now s0).db).apiFetchLog ++
            [{ resource := Resource.fixtures (getTodayDateKey now),
               success := true,
               fetchedAt := now }] := rfl
        rw [this]
        exact List.mem_append_right _ (List.mem_singleton.mpr rfl)
      have hcall2 : (getOrRefreshTodayFixtures now provider
          (refreshToday now provider (stateAfterZeroCheck now s0)).state).fetches = 0 := by
        refine getOrRefresh_fetches_zero_of_fresh now provider _ ⟨_, hfix, hrday⟩
          ⟨_, hlog, rfl, rfl, ?_⟩
        exact Nat.div_mul_le_self now dayMs
      rw [hcall2]
      exact Nat.le_refl 1

/-- Provider returning one fixture dated within day 0. -/
def c5ProviderOne : Nat → List RawFixture :=
  fun _ => [{ apiId := 1, date := 1000, homeTeamApiId := 10, awayTeamApiId := 20 }]

/-- Witness for c5_ensure_today_at_most_one_fetch: starting from an empty
store with a provider returning one fixture dated today, the two successive
calls perform one fetch in total. -/
theorem c5_ensure_today_witness :
    (getOrRefreshTodayFixtures 0 c5ProviderOne c5EmptyState).fetches +
      (getOrRefreshTodayFixtures 0 c5ProviderOne
        (getOrRefreshTodayFixtures 0 c5ProviderOne c5EmptyState).state).fetches ≤ 1 :=
  c5_ensure_today_at_most_one_fetch c5EmptyState 0 c5ProviderOne (by decide)

end Fixtures

namespace Fixtures

/-- Every fetch-log entry surviving the prune is a fixtures:<today> entry. -/
theorem resource_eq_of_mem_prune (now : Nat) (s : FixturesState)
    {e : FetchLogEntry} (he : e ∈ (pruneDataOlderThanToday now s).db.apiFetchLog) :
    e.resource = Resource.fixtures (getTodayDateKey now) := by
  have := (List.mem_filter.mp he).2
  exact of_decide_eq_true this

/-- Every fetch-log entry after the zero-fixtures cleanup is a
fixtures:<today> entry. -/
theorem resource_eq_of_mem_zeroCheck (now : Nat) (s : FixturesState)
    {e : FetchLogEntry}
    (he : e ∈ (stateAfterZeroCheck now s).db.apiFetchLog) :
    e.resource = Resource.fixtures (getTodayDateKey now) := by
  unfold stateAfterZeroCheck at he
  split at he
  · exact resource_eq_of_mem_prune now s (List.mem_filter.mp he).1
  · exact resource_eq_of_mem_prune now s he

/-! ### C6: stale-cache detection on a zero-fixture day -/

/-- C6: when no fixture stored for today exists but a success marker for
fixtures:<today> does, getOrRefreshTodayFixtures does not serve a cache hit:
it deletes the marker and the in-memory promise and takes the refresh path
(one provider fetch).  Afterwards the fetch log holds exactly the one success
entry the refresh itself wrote at the current clock value — the stale marker
is gone — and the promise slot holds the fresh refresh result. -/
theorem c6_zero_fixtures_clears_stale_marker (s0 : FixturesState) (now : Nat)
    (provider : Nat → List RawFixture)
    (h1 : ∀ f ∈ s0.db.fixtures, ¬ isInDay (getTodayDateKey now) f.date)
    (h2 : ∃ e ∈ s0.db.apiFetchLog,
      e.resource = Resource.fixtures (getTodayDateKey now) ∧ e.success = true) :
    (getOrRefreshTodayFixtures now provider s0).fetches = 1 ∧
    (getOrRefreshTodayFixtures now provider s0).state.db.apiFetchLog =
      [{ resource := Resource.fixtures (getTodayDateKey now), success := true,
         fetchedAt := now }] ∧
    (getOrRefreshTodayFixtures now provider s0).state.todayFixturesPromise =
      some (getTodayDateKey now, (getOrRefreshTodayFixtures now provider s0).result) := by
  have hfix : (pruneDataOlderThanToday now s0).db.fixtures = [] := by
    refine List.filter_eq_nil_iff.mpr (fun f hf => ?_)
    intro hkeep
    exact h1 f hf ((pruneKeep_eq_true_iff _ _).mp hkeep)
  have hE : existingTodayFixtures now s0 = [] := by
    unfold existingTodayFixtures
    rw [hfix]
    rfl
  have hEempty : (existingTodayFixtures now s0).isEmpty = true := by
    rw [hE]
    rfl
  have hhit : cacheHitCond now s0 = false := by
    unfold cacheHitCond
    simp [hEempty]
  have hs2prom : (stateAfterZeroCheck now s0).todayFixturesPromise = none := by
    unfold stateAfterZeroCheck
    rw [if_pos hEempty]
  have hjoin : joinCond now s0 = false := by
    unfold joinCond
    rw [hs2prom]
    rfl
  have hs2log : (stateAfterZeroCheck now s0).db.apiFetchLog = [] := by
    unfold stateAfterZeroCheck
    rw [if_pos hEempty]
    refine List.filter_eq_nil_iff.mpr (fun e he => ?_)
    have := resource_eq_of_mem_prune now s0 he
    simp [this]
  have hcall : getOrRefreshTodayFixtures now provider s0 =
      refreshToday now provider (stateAfterZeroCheck now s0) := by
    unfold getOrRefreshTodayFixtures
    rw [if_neg (by simp [hhit]), if_neg (by simp [hjoin])]
  have hlog2 : (refreshToday now provider
      (stateAfterZeroCheck now s0)).state.db.apiFetchLog =
      [{ resource := Resource.fixtures (getTodayDateKey now), success := true,
         fetchedAt := now }] := by
    have hshape : (refreshToday now provider
        (stateAfterZeroCheck now s0)).state.db.apiFetchLog =
        ((sortByDate (dedupByApiId (provider (getTodayDateKey now)))).foldl
          applyRaw (stateAfterZeroCheck now s0).db).apiFetchLog ++
        [{ resource := Resource.fixtures (getTodayDateKey now), success := true,
           fetchedAt := now }] := rfl
    rw [hshape, foldl_applyRaw_apiFetchLog, hs2log]
    rfl
  refine ⟨by rw [hcall]; rfl, ?_, by rw [hcall]; rfl⟩
  rw [hcall]
  exact hlog2

/-- State for the C6 witness: no fixtures at all, one stale-but-same-day
success marker, and a leftover in-memory promise. -/
def c6State : FixturesState :=
  { db :=
      { fixtures := [], teams := [3], apiFetchLog :=
          [{ resource := Resource.fixtures 0, success := true, fetchedAt := 5 }],
        teamSeasonStats := [], teamFixtureCache := [], playerSeasonStats := [],
        fixtureLineups := [], liveScoreCache := [] },
    todayFixturesPromise := some (0, []) }

def c6Provider : Nat → List RawFixture := fun _ => []

/-- Witness for c6_zero_fixtures_clears_stale_marker at the concrete state:
the call refreshes (one fetch), the old marker fetched at 5 is replaced by
the refresh-written marker fetched at 100, and the promise holds the fresh
result. -/
theorem c6_zero_fixtures_witness :
    (getOrRefreshTodayFixtures 100 c6Provider c6State).fetches = 1 ∧
    (getOrRefreshTodayFixtures 100 c6Provider c6State).state.db.apiFetchLog =
      [{ resource := Resource.fixtures 0, success := true, fetchedAt := 100 }] ∧
    (getOrRefreshTodayFixtures 100 c6Provider c6State).state.todayFixturesPromise =
      some (0, (getOrRefreshTodayFixtures 100 c6Provider c6State).result) :=
  c6_zero_fixtures_clears_stale_marker c6State 100 c6Provider (by simp [c6State])
    ⟨{ resource := Resource.fixtures 0, success := true, fetchedAt := 5 },
      List.mem_singleton.mpr rfl, rfl, rfl⟩

/-! ### C9: the prune inside every today-fixtures read -/

/-- C9: pruneDataOlderThanToday, which getOrRefreshTodayFixtures runs first,
(a) keeps exactly the fetch-log rows whose resource is fixtures:<today> —
deleting every other marker, in particular every teamSeasonCorners marker
even when written the same day — and keeps exactly the fixtures dated inside
today's bounds, while leaving the teams table, the five other tables and the
in-memory promise untouched; (b) consequently no surviving pruned log entry
is a teamSeasonCorners marker; and (c) after a full getOrRefreshTodayFixtures
call every fetch-log row in the resulting state is a fixtures:<today> row, so
no other category's freshness marker survives any today-fixtures read. -/
theorem c9_prune_wipes_other_markers :
    (∀ (now : Nat) (s : FixturesState),
      (pruneDataOlderThanToday now s).db.apiFetchLog =
        s.db.apiFetchLog.filter (fun e =>
          decide (e.resource = Resource.fixtures (getTodayDateKey now))) ∧
      (pruneDataOlderThanToday now s).db.fixtures =
        s.db.fixtures.filter (fun f =>
          ! (decide (f.date < dayStartOf (getTodayDateKey now)) ||
             decide (dayEndOf (getTodayDateKey now) < f.date))) ∧
      (pruneDataOlderThanToday now s).db.teams = s.db.teams ∧
      (pruneDataOlderThanToday now s).db.teamSeasonStats = s.db.teamSeasonStats ∧
      (pruneDataOlderThanToday now s).db.teamFixtureCache = s.db.teamFixtureCache ∧
      (pruneDataOlderThanToday now s).db.playerSeasonStats = s.db.playerSeasonStats ∧
      (pruneDataOlderThanToday now s).db.fixtureLineups = s.db.fixtureLineups ∧
      (pruneDataOlderThanToday now s).db.liveScoreCache = s.db.liveScoreCache ∧
      (pruneDataOlderThanToday now s).todayFixturesPromise =
        s.todayFixturesPromise) ∧
    (∀ (now : Nat) (s : FixturesState) (teamId : Nat) (season league : String),
      ∀ e ∈ (pruneDataOlderThanToday now s).db.apiFetchLog,
        e.resource ≠ Resource.teamSeasonCorners teamId season league) ∧
    (∀ (now : Nat) (provider : Nat → List RawFixture) (s : FixturesState),
      ∀ e ∈ (getOrRefreshTodayFixtures now provider s).state.db.apiFetchLog,
        e.resource = Resource.fixtures (getTodayDateKey now)) := by
  refine ⟨fun now s => ⟨rfl, rfl, rfl, rfl, rfl, rfl, rfl, rfl, rfl⟩, ?_, ?_⟩
  · intro now s teamId season league e he
    rw [resource_eq_of_mem_prune now s he]
    intro hcon
    exact Resource.noConfusion hcon
  · intro now provider s e he
    unfold getOrRefreshTodayFixtures at he
    split at he
    · exact resource_eq_of_mem_zeroCheck now s he
    · split at he
      · exact resource_eq_of_mem_zeroCheck now s he
      · have hshape : (refreshToday now provider
            (stateAfterZeroCheck now s)).state.db.apiFetchLog =
            ((sortByDate (dedupByApiId (provider (getTodayDateKey now)))).foldl
              applyRaw (stateAfterZeroCheck now s).db).apiFetchLog ++
            [{ resource := Resource.fixtures (getTodayDateKey now),
               success := true,
               fetchedAt := now }] := rfl
        rw [hshape, foldl_applyRaw_apiFetchLog] at he
        rcases List.mem_append.mp he with h3 | h3
        · exact resource_eq_of_mem_zeroCheck now s h3
        · rw [List.mem_singleton.mp h3]

/-- Witness fixing concrete inputs for c9_prune_wipes_other_markers: pruning
a store holding a same-day teamSeasonCorners marker and a fixtures marker
keeps only the fixtures one, and the surviving entry of a full call is a
fixtures:<today> row. -/
def c9State : FixturesState :=
  { db :=
      { fixtures := [{ apiId := 1, date := 1000 }], teams := [3],
        apiFetchLog :=
          [{ resource := Resource.teamSeasonCorners 7 "2025" "Premier League",
             success := true,
             fetchedAt := 50 },
           { resource := Resource.fixtures 0, success := true, fetchedAt := 60 }],
        teamSeasonStats := [9], teamFixtureCache := [8], playerSeasonStats := [7],
        fixtureLineups := [6], liveScoreCache := [5] },
    todayFixturesPromise := none }

theorem c9_prune_wipes_witness :
    ((pruneDataOlderThanToday 100 c9State).db.apiFetchLog =
      c9State.db.apiFetchLog.filter (fun e =>
        decide (e.resource = Resource.fixtures (getTodayDateKey 100)))) ∧
    (({ resource := Resource.fixtures 0, success := true, fetchedAt := 60 } :
        FetchLogEntry) ∈ (pruneDataOlderThanToday 100 c9State).db.apiFetchLog ∧
      ({ resource := Resource.fixtures 0, success := true, fetchedAt := 60 } :
        FetchLogEntry).resource ≠
        Resource.teamSeasonCorners 7 "2025" "Premier League") :=
  ⟨(c9_prune_wipes_other_markers.1 100 c9State).1,
   by decide,
   c9_prune_wipes_other_markers.2.1 100 c9State 7 "2025" "Premier League"
     { resource := Resource.fixtures 0, success := true, fetchedAt := 60 }
     (by decide)⟩

end Fixtures
